import Mathlib

/-!
# Capture manager of neko (`internal/capture/manager.go`)

A shallow embedding of the capture manager: the pipeline descriptors built by
`New`, the accessors `Video` / `VideoIDs`, the two screen-size listeners
registered by `Start`, and `Shutdown`.

Conventions of the embedding.

* Go's `int` is the 64-bit two's complement integer of the platforms neko is
  built for. A Go `int` value is an `Int`; every multiplication goes through
  `wrapInt`, division is Go's truncated division (`Int.tdiv`).
* `fmt.Sprintf` is the function `Sprintf` below, which walks the format and
  consumes one operand per verb.
* A Go `map[string]*T` is an association list with the keys of the map
  literal; `range` over a map visits the keys in an order that the language
  leaves open, so every loop over the map takes the visiting order as an
  argument.
* A call of zerolog's `logger.Panic()...Msg(..)` logs and then panics: the
  procedure stops there. Procedures return the state they reached, the calls
  they made on the sub-managers and the panic message, if any.
-/

namespace capture

/-! ## Go integers -/

/-- Two's complement wrap-around of a mathematical integer into Go's 64-bit `int`. -/
def wrapInt (x : Int) : Int := (x + 2 ^ 63) % 2 ^ 64 - 2 ^ 63

/-- Go's `a * b` on `int`. -/
def goMul (a b : Int) : Int := wrapInt (a * b)

/-- Go's `a / b` on `int` (truncated towards zero); the divisors used are small positive constants. -/
def goDiv (a b : Int) : Int := wrapInt (Int.tdiv a b)

/-! ## `fmt.Sprintf` -/

/-- An operand of `fmt.Sprintf`: the source passes strings and ints only. -/
inductive Arg where
  | str (s : String)
  | int (i : Int)

/-- The text `fmt` prints for an operand whose type does not fit the verb: `%!d(string=hi)`. -/
def Arg.bad (verb : Char) : Arg → List Char
  | Arg.str s => ['%', '!', verb] ++ "(string=".data ++ s.data ++ [')']
  | Arg.int i => ['%', '!', verb] ++ "(int=".data ++ (toString i).data ++ [')']

/-- The text of one operand under one verb. -/
def Arg.render (verb : Char) : Arg → List Char
  | Arg.str s => if verb = 's' ∨ verb = 'v' then s.data else Arg.bad verb (Arg.str s)
  | Arg.int i => if verb = 'd' ∨ verb = 'v' then (toString i).data else Arg.bad verb (Arg.int i)

/-- The `type=value` text of an operand that no verb consumed. -/
def Arg.extra : Arg → List Char
  | Arg.str s => "string=".data ++ s.data
  | Arg.int i => "int=".data ++ (toString i).data

/-- The `%!(EXTRA ...)` suffix for operands that are left over. -/
def extraArgs : List Arg → List Char
  | [] => []
  | a :: as =>
    "%!(EXTRA ".data ++ a.extra ++ (as.map (fun b => [',', ' '] ++ b.extra)).flatten ++ [')']

/-- The formatting loop of `fmt.Sprintf` over the characters of the format. -/
def sprintfAux : List Char → List Arg → List Char
  | [], args => extraArgs args
  | ['%'], _ => "%!(NOVERB)".data
  | '%' :: '%' :: rest, args => '%' :: sprintfAux rest args
  | '%' :: verb :: rest, [] => ['%', '!', verb] ++ "(MISSING)".data ++ sprintfAux rest []
  | '%' :: verb :: rest, a :: args => a.render verb ++ sprintfAux rest args
  | c :: rest, args => c :: sprintfAux rest args

/-- Go's `fmt.Sprintf(format, args...)` for the verbs `%s`, `%d`, `%v` and `%%`. -/
def Sprintf (format : String) (args : List Arg) : String :=
  String.mk (sprintfAux format.data args)

/-! ## Types the capture manager is built from -/

/-- The `types.ScreenSize` record returned by `desktop.GetScreenSize()`. -/
structure ScreenSize where
  Width : Int
  Height : Int
  Rate : Int

/-- The `codec.RTPCodec` record, as far as the capture manager reads it. -/
structure RTPCodec where
  Name : String
  Pipeline : String

/-- The `config.Capture` record: the fields that `New` reads, typed by the verbs they are printed with. -/
structure Config where
  Display : String
  AudioDevice : String
  AudioCodec : RTPCodec
  AudioPipeline : String
  BroadcastAudioBitrate : Int
  BroadcastVideoBitrate : Int
  BroadcastPreset : String
  BroadcastPipeline : String
  ScreencastEnabled : Bool
  ScreencastRate : String
  ScreencastQuality : String
  ScreencastPipeline : String

/-! ## The descriptor functions of `New` -/

/-- The local `bitrate` of the closure stored under `"hd"`. -/
def hdBitrate (screen : ScreenSize) : Int :=
  goDiv (goMul (goMul screen.Width screen.Height) 6) 4

/-- The closure stored under `"hd"`; `screen` is what `desktop.GetScreenSize()` returns when the
closure is called. -/
def hdPipelineStr (config : Config) (screen : ScreenSize) : String :=
  let bitrate := hdBitrate screen
  let buffer := goDiv bitrate 1000
  Sprintf
    ("ximagesrc display-name=%s show-pointer=false use-damage=false " ++
      "! video/x-raw,framerate=25/1 " ++
      "! videoconvert " ++
      "! queue " ++
      "! vp8enc end-usage=cbr target-bitrate=%d cpu-used=4 threads=4 deadline=1 undershoot=95 keyframe-max-dist=25 min-quantizer=3 max-quantizer=32 buffer-size=%d buffer-initial-size=%d buffer-optimal-size=%d " ++
      "! appsink name=appsink")
    [Arg.str config.Display, Arg.int bitrate, Arg.int (goMul buffer 6), Arg.int (goMul buffer 4),
      Arg.int (goMul buffer 5)]

/-- The local `bitrate` of the closure stored under `"hq"`. -/
def hqBitrate (screen : ScreenSize) : Int :=
  goDiv (goDiv (goMul (goMul screen.Width screen.Height) 6) 4) 2

/-- The closure stored under `"hq"`; `screen` is what `desktop.GetScreenSize()` returns when the
closure is called. -/
def hqPipelineStr (config : Config) (screen : ScreenSize) : String :=
  let bitrate := hqBitrate screen
  let buffer := goDiv bitrate 1000
  Sprintf
    ("ximagesrc display-name=%s show-pointer=false use-damage=false " ++
      "! video/x-raw,framerate=15/1 " ++
      "! videoconvert " ++
      "! queue " ++
      "! vp8enc end-usage=cbr target-bitrate=%d cpu-used=4 threads=4 deadline=1 undershoot=95 keyframe-max-dist=25 min-quantizer=3 max-quantizer=32 buffer-size=%d buffer-initial-size=%d buffer-optimal-size=%d " ++
      "! appsink name=appsink")
    [Arg.str config.Display, Arg.int bitrate, Arg.int (goMul buffer 6), Arg.int (goMul buffer 4),
      Arg.int (goMul buffer 5)]

/-- The local `bitrate` of the closure stored under `"mq"`. -/
def mqBitrate (screen : ScreenSize) : Int :=
  goDiv (goDiv (goMul (goMul screen.Width screen.Height) 6) 4) 3

/-- The closure stored under `"mq"`; `screen` is what `desktop.GetScreenSize()` returns when the
closure is called. -/
def mqPipelineStr (config : Config) (screen : ScreenSize) : String :=
  let bitrate := mqBitrate screen
  let buffer := goDiv bitrate 1000
  Sprintf
    ("ximagesrc display-name=%s show-pointer=false use-damage=false " ++
      "! video/x-raw,framerate=10/1 " ++
      "! videoconvert " ++
      "! queue " ++
      "! vp8enc end-usage=cbr target-bitrate=%d cpu-used=4 threads=4 deadline=1 undershoot=95 keyframe-max-dist=25 min-quantizer=3 max-quantizer=32 buffer-size=%d buffer-initial-size=%d buffer-optimal-size=%d " ++
      "! appsink name=appsink")
    [Arg.str config.Display, Arg.int bitrate, Arg.int (goMul buffer 6), Arg.int (goMul buffer 4),
      Arg.int (goMul buffer 5)]

/-- The local `bitrate` of the closure stored under `"lq"`. -/
def lqBitrate (screen : ScreenSize) : Int :=
  goDiv (goDiv (goMul (goMul screen.Width screen.Height) 6) 4) 4

/-- The closure stored under `"lq"`; `screen` is what `desktop.GetScreenSize()` returns when the
closure is called. -/
def lqPipelineStr (config : Config) (screen : ScreenSize) : String :=
  let bitrate := lqBitrate screen
  let buffer := goDiv bitrate 1000
  Sprintf
    ("ximagesrc display-name=%s show-pointer=false use-damage=false " ++
      "! video/x-raw,framerate=5/1 " ++
      "! videoconvert " ++
      "! queue " ++
      "! vp8enc end-usage=cbr target-bitrate=%d cpu-used=4 threads=4 deadline=1 undershoot=95 keyframe-max-dist=25 min-quantizer=3 max-quantizer=32 buffer-size=%d buffer-initial-size=%d buffer-optimal-size=%d " ++
      "! appsink name=appsink")
    [Arg.str config.Display, Arg.int bitrate, Arg.int (goMul buffer 6), Arg.int (goMul buffer 4),
      Arg.int (goMul buffer 5)]

/-- The text of a video descriptor with every parameter in its place: the reading of a
descriptor against which the closures are checked. -/
def videoDescriptor (display framerate : String) (bitrate size initial optimal : Int) : String :=
  "ximagesrc display-name=" ++ display ++ " show-pointer=false use-damage=false " ++
  "! video/x-raw,framerate=" ++ framerate ++ " " ++
  "! videoconvert " ++
  "! queue " ++
  "! vp8enc end-usage=cbr target-bitrate=" ++ toString bitrate ++
  " cpu-used=4 threads=4 deadline=1 undershoot=95 keyframe-max-dist=25 min-quantizer=3 max-quantizer=32" ++
  " buffer-size=" ++ toString size ++
  " buffer-initial-size=" ++ toString initial ++
  " buffer-optimal-size=" ++ toString optimal ++ " " ++
  "! appsink name=appsink"

/-- The broadcast template of `New`: the configured string, or the derived one. -/
def broadcastPipeline (config : Config) : String :=
  if config.BroadcastPipeline = "" then
    Sprintf
      ("flvmux name=mux ! rtmpsink location='\x7burl\x7d live=1' " ++
        "pulsesrc device=%s " ++
        "! audio/x-raw,channels=2 " ++
        "! audioconvert " ++
        "! queue " ++
        "! voaacenc bitrate=%d " ++
        "! mux. " ++
        "ximagesrc display-name=%s show-pointer=true use-damage=false " ++
        "! video/x-raw " ++
        "! videoconvert " ++
        "! queue " ++
        "! x264enc threads=4 bitrate=%d key-int-max=15 byte-stream=true tune=zerolatency speed-preset=%s " ++
        "! mux.")
      [Arg.str config.AudioDevice, Arg.int (goMul config.BroadcastAudioBitrate 1000),
        Arg.str config.Display, Arg.int config.BroadcastVideoBitrate, Arg.str config.BroadcastPreset]
  else config.BroadcastPipeline

/-- The screencast template of `New`: the configured string, or the derived one. -/
def screencastPipeline (config : Config) : String :=
  if config.ScreencastPipeline = "" then
    Sprintf
      ("ximagesrc display-name=%s show-pointer=true use-damage=false " ++
        "! video/x-raw,framerate=%s " ++
        "! videoconvert " ++
        "! queue " ++
        "! jpegenc quality=%s " ++
        "! appsink name=appsink")
      [Arg.str config.Display, Arg.str config.ScreencastRate, Arg.str config.ScreencastQuality]
  else config.ScreencastPipeline

/-- The closure passed to `streamNew` for the audio manager. -/
def audioPipelineStr (config : Config) (_screen : ScreenSize) : String :=
  if config.AudioPipeline ≠ "" then config.AudioPipeline
  else
    Sprintf
      ("pulsesrc device=%s " ++
        "! audio/x-raw,channels=2 " ++
        "! audioconvert " ++
        "! queue " ++
        "! %s " ++
        "! appsink name=appsink")
      [Arg.str config.AudioDevice, Arg.str config.AudioCodec.Pipeline]

/-! ## The sub-managers

`stream.go`, `broadcast.go` and `screencast.go` are not part of the excerpt. The three managers
are modelled from the specification (sections 3, 4.1 to 4.4), as far as the capture manager uses
them: `Started()`, `createPipeline()`, `destroyPipeline()` and `shutdown()`.
-/

/-- The error kinds of the capture core (section 7 of the specification). -/
inductive CaptureError where
  | PipelineConstruction
  | AlreadyStreaming
  | NotStreaming
  | SubsystemUnavailable
  deriving DecidableEq, Repr

/-- Modelled from the spec: the Stream Manager (`StreamManagerCtx`), whose source file is missing.
It wraps a codec, the deferred descriptor function, the Pipeline Handle (`pipeline` holds the
descriptor of the running native graph, `none` while stopped), the subscriber set and the
force-start flag. -/
structure StreamManagerCtx where
  codec : RTPCodec
  pipelineStr : ScreenSize → String
  pipeline : Option String
  subscribers : List String
  forced : Bool

/-- Modelled from the spec: `streamNew`, missing from the excerpt. The descriptor function is
bound, the pipeline is not started and nobody is subscribed. -/
def streamNew (codec : RTPCodec) (pipelineStr : ScreenSize → String) : StreamManagerCtx :=
  { codec := codec, pipelineStr := pipelineStr, pipeline := none, subscribers := [], forced := false }

namespace StreamManagerCtx

/-- Modelled from the spec: `Started()` of a Stream Manager, missing from the excerpt. The manager
counts as started when its subscriber set is non-empty or it was force-started; destroying the
pipeline around a resize leaves this flag alone, which is how the after-resize listener knows
what to rebuild. -/
def Started (m : StreamManagerCtx) : Bool := !m.subscribers.isEmpty || m.forced

/-- Modelled from the spec: `started()` of the Pipeline Handle, a pure state query: the native
graph is present. -/
def started (m : StreamManagerCtx) : Bool := m.pipeline.isSome

/-- Modelled from the spec: `createPipeline()`, missing from the excerpt. The descriptor function
is evaluated at this moment on the live screen size; the engine either builds the graph or fails
with `PipelineConstruction`, in which case nothing is retained; on a handle that is already
running the call does nothing. `engine` tells whether the native engine can build a graph. -/
def createPipeline (engine : String → Bool) (screen : ScreenSize) (m : StreamManagerCtx) :
    StreamManagerCtx × Option CaptureError :=
  match m.pipeline with
  | some _ => (m, none)
  | none =>
    if engine (m.pipelineStr screen) then ({ m with pipeline := some (m.pipelineStr screen) }, none)
    else (m, some CaptureError.PipelineConstruction)

/-- Modelled from the spec: `destroyPipeline()`, missing from the excerpt: releases the native
graph if there is one, and touches nothing else. -/
def destroyPipeline (m : StreamManagerCtx) : StreamManagerCtx := { m with pipeline := none }

/-- Modelled from the spec: `shutdown()`, missing from the excerpt: unconditionally destroys the
pipeline and clears the subscribers. -/
def shutdown (m : StreamManagerCtx) : StreamManagerCtx :=
  { m with pipeline := none, subscribers := [] }

end StreamManagerCtx

/-- Modelled from the spec: the Broadcast Manager (`BroacastManagerCtx`), whose source file is
missing. It holds the template given to `broadcastNew`, the destination URL of the last
`Start(url)`, the flag set by `Start` and cleared by `Stop`, and the Pipeline Handle. -/
structure BroacastManagerCtx where
  pipelineStr : String
  url : String
  forced : Bool
  pipeline : Option String

/-- Modelled from the spec: `broadcastNew`, missing from the excerpt. -/
def broadcastNew (pipelineStr : String) : BroacastManagerCtx :=
  { pipelineStr := pipelineStr, url := "", forced := false, pipeline := none }

namespace BroacastManagerCtx

/-- Modelled from the spec: `Started()` of the Broadcast Manager: the explicit start flag. -/
def Started (m : BroacastManagerCtx) : Bool := m.forced

/-- Modelled from the spec: `started()` of the Pipeline Handle. -/
def started (m : BroacastManagerCtx) : Bool := m.pipeline.isSome

/-- Modelled from the spec: `createPipeline()` of the Broadcast Manager: the destination URL is
substituted into the template at this moment. -/
def createPipeline (engine : String → Bool) (m : BroacastManagerCtx) :
    BroacastManagerCtx × Option CaptureError :=
  match m.pipeline with
  | some _ => (m, none)
  | none =>
    let descriptor := m.pipelineStr.replace "\x7burl\x7d" m.url
    if engine descriptor then ({ m with pipeline := some descriptor }, none)
    else (m, some CaptureError.PipelineConstruction)

/-- Modelled from the spec: `destroyPipeline()` of the Broadcast Manager. -/
def destroyPipeline (m : BroacastManagerCtx) : BroacastManagerCtx := { m with pipeline := none }

/-- Modelled from the spec: `shutdown()` of the Broadcast Manager: unconditionally destroys the
pipeline (there is no subscriber set to clear). -/
def shutdown (m : BroacastManagerCtx) : BroacastManagerCtx := { m with pipeline := none }

end BroacastManagerCtx

/-- Modelled from the spec: the Screencast Manager (`ScreencastManagerCtx`), whose source file is
missing. When it is disabled by configuration every operation is a no-op and `Started()` is
false. -/
structure ScreencastManagerCtx where
  enabled : Bool
  pipelineStr : String
  forced : Bool
  pipeline : Option String

/-- Modelled from the spec: `screencastNew`, missing from the excerpt. -/
def screencastNew (enabled : Bool) (pipelineStr : String) : ScreencastManagerCtx :=
  { enabled := enabled, pipelineStr := pipelineStr, forced := false, pipeline := none }

namespace ScreencastManagerCtx

/-- Modelled from the spec: `Started()` of the Screencast Manager. -/
def Started (m : ScreencastManagerCtx) : Bool := m.enabled && m.forced

/-- Modelled from the spec: `started()` of the Pipeline Handle; a disabled screencast always
reports false. -/
def started (m : ScreencastManagerCtx) : Bool := m.enabled && m.pipeline.isSome

/-- Modelled from the spec: `createPipeline()` of the Screencast Manager. -/
def createPipeline (engine : String → Bool) (m : ScreencastManagerCtx) :
    ScreencastManagerCtx × Option CaptureError :=
  if !m.enabled then (m, none)
  else
    match m.pipeline with
    | some _ => (m, none)
    | none =>
      if engine m.pipelineStr then ({ m with pipeline := some m.pipelineStr }, none)
      else (m, some CaptureError.PipelineConstruction)

/-- Modelled from the spec: `destroyPipeline()` of the Screencast Manager. -/
def destroyPipeline (m : ScreencastManagerCtx) : ScreencastManagerCtx :=
  if !m.enabled then m else { m with pipeline := none }

/-- Modelled from the spec: `shutdown()` of the Screencast Manager. -/
def shutdown (m : ScreencastManagerCtx) : ScreencastManagerCtx :=
  if !m.enabled then m else { m with pipeline := none }

end ScreencastManagerCtx

/-! ## The capture manager -/

/-- The record `CaptureManagerCtx`. The logger and the desktop handle are left out: the screen size
that `desktop.GetScreenSize()` returns is an argument of whatever reads it. -/
structure CaptureManagerCtx where
  streaming : Bool
  broadcast : BroacastManagerCtx
  screencast : ScreencastManagerCtx
  audio : StreamManagerCtx
  videos : List (String × StreamManagerCtx)
  videoIDs : List String

/-- The constructor `New`; `vp8` is what `codec.VP8()` returns. -/
def New (vp8 : RTPCodec) (config : Config) : CaptureManagerCtx :=
  { streaming := false
    broadcast := broadcastNew (broadcastPipeline config)
    screencast := screencastNew config.ScreencastEnabled (screencastPipeline config)
    audio := streamNew config.AudioCodec (audioPipelineStr config)
    videos :=
      [("hd", streamNew vp8 (hdPipelineStr config)),
       ("hq", streamNew vp8 (hqPipelineStr config)),
       ("mq", streamNew vp8 (mqPipelineStr config)),
       ("lq", streamNew vp8 (lqPipelineStr config))]
    videoIDs := ["hd", "hq", "mq", "lq"] }

/-- A sub-manager of the capture manager, as the target of a call. -/
inductive ManagerRef where
  | broadcast
  | screencast
  | audio
  | video (id : String)
  deriving DecidableEq, Repr

/-- What a procedure of the capture manager leaves behind: the managers as it left them, the
sub-managers on which it called its mutating method (`destroyPipeline`, `createPipeline` or
`shutdown`), in call order, and the message of the panic that stopped it, if any. -/
structure Run where
  manager : CaptureManagerCtx
  calls : List ManagerRef
  panic : Option String

namespace CaptureManagerCtx

/-- The keys of the map `videos`. -/
def keys (m : CaptureManagerCtx) : List String := m.videos.map Prod.fst

/-- The write through the pointer stored under `id`: the entry is replaced, the key set is not
touched. -/
def setVideo (m : CaptureManagerCtx) (id : String) (video : StreamManagerCtx) :
    CaptureManagerCtx :=
  { m with videos := m.videos.map (fun entry => if entry.1 = id then (entry.1, video) else entry) }

/-- Whether the video manager stored under `id` reports `Started()`; false when there is none. -/
def startedAt (m : CaptureManagerCtx) (id : String) : Bool :=
  match m.videos.lookup id with
  | some video => video.Started
  | none => false

/-- The loop of the before-resize listener over `manager.videos`, visiting the keys in `order`. -/
def destroyVideos : List String → Run → Run
  | [], r => r
  | id :: ids, r =>
    match r.manager.videos.lookup id with
    | none => destroyVideos ids r
    | some video =>
      if video.Started then
        destroyVideos ids
          { r with manager := r.manager.setVideo id video.destroyPipeline,
                   calls := r.calls ++ [ManagerRef.video id] }
      else destroyVideos ids r

/-- The broadcast step of the before-resize listener. -/
def destroyBroadcast (r : Run) : Run :=
  if r.manager.broadcast.Started then
    { r with manager := { r.manager with broadcast := r.manager.broadcast.destroyPipeline },
             calls := r.calls ++ [ManagerRef.broadcast] }
  else r

/-- The screencast step of the before-resize listener. -/
def destroyScreencast (r : Run) : Run :=
  if r.manager.screencast.Started then
    { r with manager := { r.manager with screencast := r.manager.screencast.destroyPipeline },
             calls := r.calls ++ [ManagerRef.screencast] }
  else r

/-- The listener that `Start` hands to `desktop.OnBeforeScreenSizeChange`. -/
def OnBeforeScreenSizeChange (order : List String) (m : CaptureManagerCtx) : Run :=
  destroyScreencast (destroyBroadcast (destroyVideos order { manager := m, calls := [], panic := none }))

/-- The loop of the after-resize listener over `manager.videos`, visiting the keys in `order`;
`engine` tells, for each sub-manager, whether the native engine can build its graph. The loop
stops at the first `createPipeline` that returns an error, where the logger panics. -/
def createVideos (engine : ManagerRef → String → Bool) (screen : ScreenSize) :
    List String → Run → Run
  | [], r => r
  | id :: ids, r =>
    match r.manager.videos.lookup id with
    | none => createVideos engine screen ids r
    | some video =>
      if video.Started then
        let res := video.createPipeline (engine (ManagerRef.video id)) screen
        let r1 : Run :=
          { r with manager := r.manager.setVideo id res.1, calls := r.calls ++ [ManagerRef.video id] }
        match res.2 with
        | some _ => { r1 with panic := some "unable to recreate video pipeline" }
        | none => createVideos engine screen ids r1
      else createVideos engine screen ids r

/-- The broadcast step shared by `Start` and the after-resize listener:
`if manager.broadcast.Started() { if err := createPipeline(); err != nil { panic } }`. -/
def createBroadcast (engine : ManagerRef → String → Bool) (message : String) (r : Run) : Run :=
  if r.manager.broadcast.Started then
    let res := r.manager.broadcast.createPipeline (engine ManagerRef.broadcast)
    let r1 : Run :=
      { r with manager := { r.manager with broadcast := res.1 },
               calls := r.calls ++ [ManagerRef.broadcast] }
    match res.2 with
    | some _ => { r1 with panic := some message }
    | none => r1
  else r

/-- The screencast step of the after-resize listener. -/
def createScreencast (engine : ManagerRef → String → Bool) (r : Run) : Run :=
  if r.manager.screencast.Started then
    let res := r.manager.screencast.createPipeline (engine ManagerRef.screencast)
    let r1 : Run :=
      { r with manager := { r.manager with screencast := res.1 },
               calls := r.calls ++ [ManagerRef.screencast] }
    match res.2 with
    | some _ => { r1 with panic := some "unable to recreate screencast pipeline" }
    | none => r1
  else r

/-- The listener that `Start` hands to `desktop.OnAfterScreenSizeChange`; `screen` is the size
that `desktop.GetScreenSize()` reports while it runs. A panic ends the listener on the spot. -/
def OnAfterScreenSizeChange (order : List String) (engine : ManagerRef → String → Bool)
    (screen : ScreenSize) (m : CaptureManagerCtx) : Run :=
  let r1 := createVideos engine screen order { manager := m, calls := [], panic := none }
  match r1.panic with
  | some _ => r1
  | none =>
    let r2 := createBroadcast engine "unable to recreate broadcast pipeline" r1
    match r2.panic with
    | some _ => r2
    | none => createScreencast engine r2

/-- The two closures that `Start` registers with the desktop manager. -/
structure Listeners where
  before : List String → CaptureManagerCtx → Run
  after : List String → (ManagerRef → String → Bool) → ScreenSize → CaptureManagerCtx → Run

/-- The procedure `Start`: the broadcast pipeline is created when the broadcast is started, and
the two listeners are registered unless that creation panicked. -/
def Start (engine : ManagerRef → String → Bool) (m : CaptureManagerCtx) : Run × Option Listeners :=
  let r := createBroadcast engine "unable to create broadcast pipeline"
    { manager := m, calls := [], panic := none }
  match r.panic with
  | some _ => (r, none)
  | none => (r, some { before := OnBeforeScreenSizeChange, after := OnAfterScreenSizeChange })

/-- The loop of `Shutdown` over `manager.videos`, visiting the keys in `order`. -/
def shutdownVideos : List String → Run → Run
  | [], r => r
  | id :: ids, r =>
    match r.manager.videos.lookup id with
    | none => shutdownVideos ids r
    | some video =>
      shutdownVideos ids
        { r with manager := r.manager.setVideo id video.shutdown,
                 calls := r.calls ++ [ManagerRef.video id] }

/-- The procedure `Shutdown`, with the `error` it returns. `failed` is whatever the individual
`shutdown()` calls report; the procedure does not look at it and ends in `return nil`. -/
def Shutdown (order : List String) (_failed : ManagerRef → Option CaptureError)
    (m : CaptureManagerCtx) : Run × Option CaptureError :=
  let m1 := { m with broadcast := m.broadcast.shutdown }
  let m2 := { m1 with screencast := m1.screencast.shutdown }
  let m3 := { m2 with audio := m2.audio.shutdown }
  let r := shutdownVideos order
    { manager := m3, calls := [ManagerRef.broadcast, ManagerRef.screencast, ManagerRef.audio],
      panic := none }
  (r, none)

/-! ### Notions used to state the properties -/

/-- Whether the map holds a video manager under `id`. -/
def present (m : CaptureManagerCtx) (id : String) : Bool := (m.videos.lookup id).isSome

/-- The descriptor functions bound in the map, key by key: the part of the map that `New` fixes
and that no procedure changes. -/
def bindings (m : CaptureManagerCtx) : List (String × (ScreenSize → String)) :=
  m.videos.map (fun entry => (entry.1, entry.2.pipelineStr))

/-- Every started video manager stored under one of `ids` gets its pipeline built without an
error when `createPipeline` is called on it. -/
def allBuilt (engine : ManagerRef → String → Bool) (screen : ScreenSize)
    (m : CaptureManagerCtx) (ids : List String) : Prop :=
  ∀ id ∈ ids, ∀ v, m.videos.lookup id = some v → v.Started = true →
    (v.createPipeline (engine (ManagerRef.video id)) screen).2 = none

/-- A configuration without operator-supplied pipelines. -/
def exampleConfig : Config :=
  { Display := ":99.0", AudioDevice := "auto_null.monitor", AudioCodec := ⟨"opus", "opusenc"⟩,
    AudioPipeline := "", BroadcastAudioBitrate := 128, BroadcastVideoBitrate := 4096,
    BroadcastPreset := "veryfast", BroadcastPipeline := "", ScreencastEnabled := true,
    ScreencastRate := "10/1", ScreencastQuality := "60", ScreencastPipeline := "" }

/-- A configuration in which the operator supplies the three pipelines. -/
def explicitConfig : Config :=
  { exampleConfig with
    BroadcastPipeline := "videotestsrc ! fakesink", ScreencastPipeline := "videotestsrc ! appsink",
    AudioPipeline := "audiotestsrc ! appsink" }

/-- The manager built from `exampleConfig`, in the state where one peer has subscribed to each
video tier while the screen was 1280x720, and the broadcast and the screencast are started. -/
def exampleManager : CaptureManagerCtx :=
  { New ⟨"vp8", "vp8enc"⟩ exampleConfig with
    broadcast :=
      { pipelineStr := broadcastPipeline exampleConfig, url := "rtmp://ingest.example/live",
        forced := true,
        pipeline := some ((broadcastPipeline exampleConfig).replace "\x7burl\x7d"
          "rtmp://ingest.example/live") }
    screencast :=
      { enabled := true, pipelineStr := screencastPipeline exampleConfig, forced := true,
        pipeline := some (screencastPipeline exampleConfig) }
    videos := (New ⟨"vp8", "vp8enc"⟩ exampleConfig).videos.map
      (fun entry => (entry.1, { entry.2 with
        subscribers := ["peer-1"], pipeline := some (entry.2.pipelineStr ⟨1280, 720, 60⟩) })) }

/-- The example manager as the before-resize listener leaves it. -/
def exampleDestroyed : CaptureManagerCtx :=
  (OnBeforeScreenSizeChange ["hd", "hq", "mq", "lq"] exampleManager).manager

/-- An engine that builds every graph except the one of the video tier mq. -/
def mqFails (ref : ManagerRef) (_descriptor : String) : Bool :=
  decide (ref ≠ ManagerRef.video "mq")

/-- The individual shutdowns as they report when the one of the screencast manager fails. -/
def screencastFails (ref : ManagerRef) : Option CaptureError :=
  if ref = ManagerRef.screencast then some CaptureError.SubsystemUnavailable else none

end CaptureManagerCtx

/-! ## Integer arithmetic of the descriptor functions -/

/-- A value inside the range of the 64-bit `int` is not changed by the wrap-around. -/
theorem wrapInt_eq_self (x : Int) (h1 : -9223372036854775808 ≤ x) (h2 : x < 9223372036854775808) :
    wrapInt x = x := by
  unfold wrapInt
  norm_num
  omega

/-- The wrap-around lands in the range of the 64-bit `int`. -/
theorem wrapInt_bounds (x : Int) :
    -9223372036854775808 ≤ wrapInt x ∧ wrapInt x < 9223372036854775808 := by
  unfold wrapInt
  norm_num
  omega

/-- Truncated division by a positive divisor, through floor division. -/
theorem tdiv_cases (a b : Int) (hb : 0 < b) :
    (0 ≤ a ∧ Int.tdiv a b = a / b) ∨ (a < 0 ∧ Int.tdiv a b = -((-a) / b)) := by
  rcases le_or_lt 0 a with h | h
  · exact Or.inl ⟨h, Int.tdiv_eq_ediv h hb.le⟩
  · refine Or.inr ⟨h, ?_⟩
    have h1 : Int.tdiv (-a) b = (-a) / b := Int.tdiv_eq_ediv (by omega) hb.le
    rw [← h1, Int.neg_tdiv, neg_neg]

/-- Go division by a positive constant never wraps. -/
theorem goDiv_small (a : Int) (b : Int) (hb : 0 < b) (h1 : -9223372036854775808 ≤ a) (h2 : a < 9223372036854775808) :
    goDiv a b = Int.tdiv a b := by
  unfold goDiv
  apply wrapInt_eq_self
  · rcases tdiv_cases a b hb with ⟨h, e⟩ | ⟨h, e⟩
    · rw [e]; have := Int.ediv_nonneg h hb.le; omega
    · rw [e]
      have : (-a) / b ≤ -a := Int.ediv_le_self _ (by omega)
      omega
  · rcases tdiv_cases a b hb with ⟨h, e⟩ | ⟨h, e⟩
    · rw [e]; have : a / b ≤ a := Int.ediv_le_self _ h
      omega
    · rw [e]; have := Int.ediv_nonneg (a := -a) (by omega) hb.le; omega


theorem tdiv_abs_le (a b B : Int) (hb : 0 < b) (h1 : -B ≤ a) (h2 : a ≤ B) :
    -B ≤ Int.tdiv a b ∧ Int.tdiv a b ≤ B := by
  rcases tdiv_cases a b hb with ⟨h, e⟩ | ⟨h, e⟩
  · rw [e]
    have := Int.ediv_nonneg h hb.le
    have : a / b ≤ a := Int.ediv_le_self _ h
    omega
  · rw [e]
    have := Int.ediv_nonneg (a := -a) (by omega) hb.le
    have : (-a) / b ≤ -a := Int.ediv_le_self _ (by omega)
    omega

/-- The base bitrate, with the wrap-around of the two products spelled out. -/
theorem hdBitrate_eq (s : ScreenSize) :
    hdBitrate s = Int.tdiv (wrapInt (wrapInt (s.Width * s.Height) * 6)) 4 := by
  unfold hdBitrate goMul
  have h := wrapInt_bounds (wrapInt (s.Width * s.Height) * 6)
  exact goDiv_small _ 4 (by norm_num) h.1 h.2

theorem hdBitrate_bounds (s : ScreenSize) :
    -2305843009213693952 ≤ hdBitrate s ∧ hdBitrate s ≤ 2305843009213693952 := by
  rw [hdBitrate_eq]
  have h := wrapInt_bounds (wrapInt (s.Width * s.Height) * 6)
  rcases tdiv_cases (wrapInt (wrapInt (s.Width * s.Height) * 6)) 4 (by norm_num) with ⟨h0, e⟩ | ⟨h0, e⟩
  · rw [e]; omega
  · rw [e]; omega

theorem goDiv_hd (s : ScreenSize) (k : Int) (hk : 0 < k) :
    goDiv (hdBitrate s) k = Int.tdiv (hdBitrate s) k := by
  have h := hdBitrate_bounds s
  exact goDiv_small _ k hk (by omega) (by omega)

theorem hqBitrate_eq (s : ScreenSize) : hqBitrate s = Int.tdiv (hdBitrate s) 2 :=
  goDiv_hd s 2 (by norm_num)

theorem mqBitrate_eq (s : ScreenSize) : mqBitrate s = Int.tdiv (hdBitrate s) 3 :=
  goDiv_hd s 3 (by norm_num)

theorem lqBitrate_eq (s : ScreenSize) : lqBitrate s = Int.tdiv (hdBitrate s) 4 :=
  goDiv_hd s 4 (by norm_num)

/-- The buffer levels of a closure never overflow: the three products are exact. -/
theorem buffer_exact (b : Int) (h1 : -2305843009213693952 ≤ b) (h2 : b ≤ 2305843009213693952) :
    goMul (goDiv b 1000) 6 = Int.tdiv b 1000 * 6 ∧
    goMul (goDiv b 1000) 4 = Int.tdiv b 1000 * 4 ∧
    goMul (goDiv b 1000) 5 = Int.tdiv b 1000 * 5 := by
  have e : goDiv b 1000 = Int.tdiv b 1000 := goDiv_small _ _ (by norm_num) (by omega) (by omega)
  rw [e]
  unfold goMul
  rcases tdiv_cases b 1000 (by norm_num) with ⟨h0, e1⟩ | ⟨h0, e1⟩
  · rw [e1]
    refine ⟨wrapInt_eq_self _ ?_ ?_, wrapInt_eq_self _ ?_ ?_, wrapInt_eq_self _ ?_ ?_⟩ <;> omega
  · rw [e1]
    refine ⟨wrapInt_eq_self _ ?_ ?_, wrapInt_eq_self _ ?_ ?_, wrapInt_eq_self _ ?_ ?_⟩ <;> omega

theorem tier_bounds (s : ScreenSize) :
    (-2305843009213693952 ≤ hqBitrate s ∧ hqBitrate s ≤ 2305843009213693952) ∧
    (-2305843009213693952 ≤ mqBitrate s ∧ mqBitrate s ≤ 2305843009213693952) ∧
    (-2305843009213693952 ≤ lqBitrate s ∧ lqBitrate s ≤ 2305843009213693952) := by
  have h := hdBitrate_bounds s
  rw [hqBitrate_eq, mqBitrate_eq, lqBitrate_eq]
  exact ⟨tdiv_abs_le _ _ _ (by norm_num) h.1 h.2, tdiv_abs_le _ _ _ (by norm_num) h.1 h.2,
    tdiv_abs_le _ _ _ (by norm_num) h.1 h.2⟩

/-- Without overflow the base bitrate is the exact quotient. -/
theorem hdBitrate_exact (s : ScreenSize)
    (h1 : -9223372036854775808 ≤ s.Width * s.Height * 6)
    (h2 : s.Width * s.Height * 6 < 9223372036854775808) :
    hdBitrate s = Int.tdiv (s.Width * s.Height * 6) 4 := by
  rw [hdBitrate_eq]
  have e1 : wrapInt (s.Width * s.Height) = s.Width * s.Height :=
    wrapInt_eq_self _ (by omega) (by omega)
  rw [e1, wrapInt_eq_self _ h1 h2]

/-! ## The text of the video descriptors -/

set_option maxRecDepth 100000 in
/-- The operands of the hd closure land in the places of the descriptor. -/
theorem hd_render (config : Config) (s : ScreenSize) :
    hdPipelineStr config s = videoDescriptor config.Display "25/1" (hdBitrate s)
      (goMul (goDiv (hdBitrate s) 1000) 6) (goMul (goDiv (hdBitrate s) 1000) 4)
      (goMul (goDiv (hdBitrate s) 1000) 5) := by
  apply String.ext
  simp [hdPipelineStr, videoDescriptor, Sprintf, sprintfAux, Arg.render, extraArgs]

set_option maxRecDepth 100000 in
theorem hq_render (config : Config) (s : ScreenSize) :
    hqPipelineStr config s = videoDescriptor config.Display "15/1" (hqBitrate s)
      (goMul (goDiv (hqBitrate s) 1000) 6) (goMul (goDiv (hqBitrate s) 1000) 4)
      (goMul (goDiv (hqBitrate s) 1000) 5) := by
  apply String.ext
  simp [hqPipelineStr, videoDescriptor, Sprintf, sprintfAux, Arg.render, extraArgs]

set_option maxRecDepth 100000 in
theorem mq_render (config : Config) (s : ScreenSize) :
    mqPipelineStr config s = videoDescriptor config.Display "10/1" (mqBitrate s)
      (goMul (goDiv (mqBitrate s) 1000) 6) (goMul (goDiv (mqBitrate s) 1000) 4)
      (goMul (goDiv (mqBitrate s) 1000) 5) := by
  apply String.ext
  simp [mqPipelineStr, videoDescriptor, Sprintf, sprintfAux, Arg.render, extraArgs]

set_option maxRecDepth 100000 in
theorem lq_render (config : Config) (s : ScreenSize) :
    lqPipelineStr config s = videoDescriptor config.Display "5/1" (lqBitrate s)
      (goMul (goDiv (lqBitrate s) 1000) 6) (goMul (goDiv (lqBitrate s) 1000) 4)
      (goMul (goDiv (lqBitrate s) 1000) 5) := by
  apply String.ext
  simp [lqPipelineStr, videoDescriptor, Sprintf, sprintfAux, Arg.render, extraArgs]


/-- C1: for every configuration and every screen size that `GetScreenSize()` reports when the
descriptor function is called, the descriptors of the tiers hd, hq, mq and lq carry the
target-bitrates base, base/2, base/3 and base/4 and the framerates 25/1, 15/1, 10/1 and 5/1,
where base is Go's `(Width * Height * 6) / 4` (64-bit products, truncated division); whenever
the product `Width * Height * 6` fits Go's `int`, base is the exact integer quotient, and hd
at 1280x720 and at 1920x1080 carries 1382400 and 3110400. -/
theorem descriptor_bitrate_and_framerate (config : Config) (screen : ScreenSize) :
    (∃ size initial optimal, hdPipelineStr config screen =
      videoDescriptor config.Display "25/1" (hdBitrate screen) size initial optimal) ∧
    (∃ size initial optimal, hqPipelineStr config screen =
      videoDescriptor config.Display "15/1" (Int.tdiv (hdBitrate screen) 2) size initial optimal) ∧
    (∃ size initial optimal, mqPipelineStr config screen =
      videoDescriptor config.Display "10/1" (Int.tdiv (hdBitrate screen) 3) size initial optimal) ∧
    (∃ size initial optimal, lqPipelineStr config screen =
      videoDescriptor config.Display "5/1" (Int.tdiv (hdBitrate screen) 4) size initial optimal) ∧
    hdBitrate screen = Int.tdiv (wrapInt (wrapInt (screen.Width * screen.Height) * 6)) 4 ∧
    (-(2 : Int) ^ 63 ≤ screen.Width * screen.Height * 6 →
      screen.Width * screen.Height * 6 < (2 : Int) ^ 63 →
      hdBitrate screen = Int.tdiv (screen.Width * screen.Height * 6) 4) ∧
    (screen.Width = 1280 → screen.Height = 720 → hdBitrate screen = 1382400) ∧
    (screen.Width = 1920 → screen.Height = 1080 → hdBitrate screen = 3110400) := by
  have h2 := hq_render config screen
  have h3 := mq_render config screen
  have h4 := lq_render config screen
  rw [hqBitrate_eq] at h2
  rw [mqBitrate_eq] at h3
  rw [lqBitrate_eq] at h4
  refine ⟨⟨_, _, _, hd_render config screen⟩, ⟨_, _, _, h2⟩, ⟨_, _, _, h3⟩, ⟨_, _, _, h4⟩,
    hdBitrate_eq screen, ?_, ?_, ?_⟩
  · intro h1 h2
    exact hdBitrate_exact screen (by norm_num at h1; exact h1) (by norm_num at h2; exact h2)
  · intro hw hh
    rw [hdBitrate_eq, hw, hh]; decide
  · intro hw hh
    rw [hdBitrate_eq, hw, hh]; decide

/-- Witness of C1: a 1280x720 screen fits, and its base bitrate is the exact quotient. -/
theorem descriptor_bitrate_and_framerate_witness :
    hdBitrate ⟨1280, 720, 60⟩ = Int.tdiv (1280 * 720 * 6) 4 ∧
    hdBitrate ⟨1280, 720, 60⟩ = 1382400 :=
  ⟨(descriptor_bitrate_and_framerate ⟨"", "", ⟨"", ""⟩, "", 0, 0, "", "", false, "", "", ""⟩
      ⟨1280, 720, 60⟩).2.2.2.2.2.1 (by decide) (by decide),
   (descriptor_bitrate_and_framerate ⟨"", "", ⟨"", ""⟩, "", 0, 0, "", "", false, "", "", ""⟩
      ⟨1280, 720, 60⟩).2.2.2.2.2.2.1 rfl rfl⟩

/-- C2: for every configuration and screen size, each of the four descriptors carries, next to
its target-bitrate b, the buffer levels (b/1000)*6, (b/1000)*4 and (b/1000)*5: the division by
1000 is truncated and comes first, and the products are exact. -/
theorem descriptor_buffer_levels (config : Config) (screen : ScreenSize) :
    hdPipelineStr config screen =
      videoDescriptor config.Display "25/1" (hdBitrate screen)
        (Int.tdiv (hdBitrate screen) 1000 * 6) (Int.tdiv (hdBitrate screen) 1000 * 4)
        (Int.tdiv (hdBitrate screen) 1000 * 5) ∧
    hqPipelineStr config screen =
      videoDescriptor config.Display "15/1" (hqBitrate screen)
        (Int.tdiv (hqBitrate screen) 1000 * 6) (Int.tdiv (hqBitrate screen) 1000 * 4)
        (Int.tdiv (hqBitrate screen) 1000 * 5) ∧
    mqPipelineStr config screen =
      videoDescriptor config.Display "10/1" (mqBitrate screen)
        (Int.tdiv (mqBitrate screen) 1000 * 6) (Int.tdiv (mqBitrate screen) 1000 * 4)
        (Int.tdiv (mqBitrate screen) 1000 * 5) ∧
    lqPipelineStr config screen =
      videoDescriptor config.Display "5/1" (lqBitrate screen)
        (Int.tdiv (lqBitrate screen) 1000 * 6) (Int.tdiv (lqBitrate screen) 1000 * 4)
        (Int.tdiv (lqBitrate screen) 1000 * 5) := by
  have hd := hdBitrate_bounds screen
  obtain ⟨hq, mq, lq⟩ := tier_bounds screen
  obtain ⟨a1, a2, a3⟩ := buffer_exact _ hd.1 hd.2
  obtain ⟨b1, b2, b3⟩ := buffer_exact _ hq.1 hq.2
  obtain ⟨c1, c2, c3⟩ := buffer_exact _ mq.1 mq.2
  obtain ⟨d1, d2, d3⟩ := buffer_exact _ lq.1 lq.2
  refine ⟨?_, ?_, ?_, ?_⟩
  · rw [← a1, ← a2, ← a3]; exact hd_render config screen
  · rw [← b1, ← b2, ← b3]; exact hq_render config screen
  · rw [← c1, ← c2, ← c3]; exact mq_render config screen
  · rw [← d1, ← d2, ← d3]; exact lq_render config screen

/-- Counterexample to C10 as stated: on the screen size 2147483648 x 2147483648 (width and height
are non-negative) the product `Width * Height * 6` wraps around, the hd tier gets a smaller
target-bitrate than the hq tier, the lq bitrate is negative, and the bitrates are smaller than
those of a 1280x720 screen although the pixel count is larger. -/
theorem tier_ordering_counterexample :
    (0 : Int) ≤ 2147483648 ∧
    hdBitrate ⟨2147483648, 2147483648, 60⟩ < hqBitrate ⟨2147483648, 2147483648, 60⟩ ∧
    lqBitrate ⟨2147483648, 2147483648, 60⟩ < 0 ∧
    (1280 : Int) * 720 ≤ 2147483648 * 2147483648 ∧
    hdBitrate ⟨2147483648, 2147483648, 60⟩ < hdBitrate ⟨1280, 720, 60⟩ := by
  decide

/-- C10, amended: for every screen size with width >= 0, height >= 0 and `Width * Height * 6`
below 2^63 (no wrap-around of Go's `int`), the target-bitrates satisfy hd >= hq >= mq >= lq >= 0,
and among such screen sizes every tier's bitrate is non-decreasing in `Width * Height`. -/
theorem tier_ordering (s t : ScreenSize)
    (hsw : 0 ≤ s.Width) (hsh : 0 ≤ s.Height) (hs : s.Width * s.Height * 6 < (2 : Int) ^ 63)
    (htw : 0 ≤ t.Width) (hth : 0 ≤ t.Height) (ht : t.Width * t.Height * 6 < (2 : Int) ^ 63) :
    (hqBitrate s ≤ hdBitrate s ∧ mqBitrate s ≤ hqBitrate s ∧ lqBitrate s ≤ mqBitrate s ∧
      0 ≤ lqBitrate s) ∧
    (s.Width * s.Height ≤ t.Width * t.Height →
      hdBitrate s ≤ hdBitrate t ∧ hqBitrate s ≤ hqBitrate t ∧
      mqBitrate s ≤ mqBitrate t ∧ lqBitrate s ≤ lqBitrate t) := by
  norm_num at hs ht
  have ps : 0 ≤ s.Width * s.Height := mul_nonneg hsw hsh
  have pt : 0 ≤ t.Width * t.Height := mul_nonneg htw hth
  have es : hdBitrate s = s.Width * s.Height * 6 / 4 := by
    rw [hdBitrate_exact s (by omega) hs]
    exact Int.tdiv_eq_ediv (by omega) (by norm_num)
  have et : hdBitrate t = t.Width * t.Height * 6 / 4 := by
    rw [hdBitrate_exact t (by omega) ht]
    exact Int.tdiv_eq_ediv (by omega) (by norm_num)
  have ns : 0 ≤ hdBitrate s := by rw [es]; omega
  have nt : 0 ≤ hdBitrate t := by rw [et]; omega
  rw [hqBitrate_eq, mqBitrate_eq, lqBitrate_eq, hqBitrate_eq, mqBitrate_eq, lqBitrate_eq,
    Int.tdiv_eq_ediv ns (by norm_num), Int.tdiv_eq_ediv ns (by norm_num),
    Int.tdiv_eq_ediv ns (by norm_num), Int.tdiv_eq_ediv nt (by norm_num),
    Int.tdiv_eq_ediv nt (by norm_num), Int.tdiv_eq_ediv nt (by norm_num), es, et]
  generalize s.Width * s.Height = p at *
  generalize t.Width * t.Height = q at *
  refine ⟨by omega, fun h => by omega⟩

/-- Witness of the amended C10: 1280x720 against 1920x1080. -/
theorem tier_ordering_witness :
    (hqBitrate ⟨1280, 720, 60⟩ ≤ hdBitrate ⟨1280, 720, 60⟩ ∧
      mqBitrate ⟨1280, 720, 60⟩ ≤ hqBitrate ⟨1280, 720, 60⟩ ∧
      lqBitrate ⟨1280, 720, 60⟩ ≤ mqBitrate ⟨1280, 720, 60⟩ ∧
      0 ≤ lqBitrate ⟨1280, 720, 60⟩) ∧
    ((1280 : Int) * 720 ≤ 1920 * 1080 →
      hdBitrate ⟨1280, 720, 60⟩ ≤ hdBitrate ⟨1920, 1080, 60⟩ ∧
      hqBitrate ⟨1280, 720, 60⟩ ≤ hqBitrate ⟨1920, 1080, 60⟩ ∧
      mqBitrate ⟨1280, 720, 60⟩ ≤ mqBitrate ⟨1920, 1080, 60⟩ ∧
      lqBitrate ⟨1280, 720, 60⟩ ≤ lqBitrate ⟨1920, 1080, 60⟩) :=
  tier_ordering ⟨1280, 720, 60⟩ ⟨1920, 1080, 60⟩ (by decide) (by decide) (by decide)
    (by decide) (by decide) (by decide)

namespace CaptureManagerCtx

/-! ## The map of video managers -/

theorem setVideo_keys (m : CaptureManagerCtx) (id : String) (v : StreamManagerCtx) :
    (m.setVideo id v).keys = m.keys := by
  unfold setVideo keys
  simp only [List.map_map]
  apply List.map_congr_left
  intro e _
  by_cases h : e.1 = id <;> simp [h]

theorem lookup_map_set (l : List (String × StreamManagerCtx)) (id k : String) (v : StreamManagerCtx) :
    (l.map (fun entry => if entry.1 = id then (entry.1, v) else entry)).lookup k =
      if k = id then (l.lookup k).map (fun _ => v) else l.lookup k := by
  induction l with
  | nil => simp
  | cons e l ih =>
    obtain ⟨a, b⟩ := e
    rw [List.map_cons]
    by_cases haid : a = id
    · rw [if_pos haid, List.lookup_cons, List.lookup_cons, ih]
      by_cases hka : k = a
      · have hk : k = id := hka.trans haid
        simp [hka, hk, haid]
      · have hka' : (k == a) = false := by simpa using hka
        simp [hka']
    · rw [if_neg haid, List.lookup_cons, List.lookup_cons, ih]
      by_cases hka : k = a
      · have hk : ¬ k = id := fun h => haid (hka ▸ h)
        simp [hka, haid]
      · have hka' : (k == a) = false := by simpa using hka
        simp [hka']

/-- Looking up a key after a write through the pointer stored under `id`. -/
theorem setVideo_lookup (m : CaptureManagerCtx) (id k : String) (v : StreamManagerCtx) :
    (m.setVideo id v).videos.lookup k =
      if k = id then (m.videos.lookup k).map (fun _ => v) else m.videos.lookup k :=
  lookup_map_set m.videos id k v


/-! ## The before-resize listener -/

theorem startedAt_setVideo (m : CaptureManagerCtx) (id : String) (v w : StreamManagerCtx)
    (hl : m.videos.lookup id = some v) (hs : w.Started = v.Started) :
    (m.setVideo id w).startedAt = m.startedAt := by
  funext k
  unfold startedAt
  rw [setVideo_lookup]
  by_cases hk : k = id
  · subst hk; simp [hl, hs]
  · simp [hk]

theorem destroyVideos_calls (order : List String) (r : Run) :
    (destroyVideos order r).calls =
      r.calls ++ (order.filter r.manager.startedAt).map ManagerRef.video := by
  induction order generalizing r with
  | nil => simp [destroyVideos]
  | cons id ids ih =>
    unfold destroyVideos
    cases hl : r.manager.videos.lookup id with
    | none =>
      have hs : r.manager.startedAt id = false := by simp [startedAt, hl]
      simp [ih, hs]
    | some video =>
      by_cases hst : video.Started = true
      · have hs : r.manager.startedAt id = true := by simp [startedAt, hl, hst]
        simp only [hst, if_true]
        rw [ih]
        simp only [startedAt_setVideo r.manager id video video.destroyPipeline hl rfl]
        simp [hs]
      · have hs : r.manager.startedAt id = false := by simp [startedAt, hl, hst]
        simp [hst, ih, hs]

theorem destroyVideos_frame (order : List String) (r : Run) :
    (destroyVideos order r).panic = r.panic ∧
    (destroyVideos order r).manager.broadcast = r.manager.broadcast ∧
    (destroyVideos order r).manager.screencast = r.manager.screencast ∧
    (destroyVideos order r).manager.audio = r.manager.audio ∧
    (destroyVideos order r).manager.videoIDs = r.manager.videoIDs ∧
    (destroyVideos order r).manager.keys = r.manager.keys := by
  induction order generalizing r with
  | nil => simp [destroyVideos]
  | cons id ids ih =>
    unfold destroyVideos
    cases hl : r.manager.videos.lookup id with
    | none => simpa using ih r
    | some video =>
      by_cases hst : video.Started = true
      · simp only [hst, if_true]
        have h := ih { r with manager := r.manager.setVideo id video.destroyPipeline,
                              calls := r.calls ++ [ManagerRef.video id] }
        simpa [setVideo_keys] using h
      · simpa [hst] using ih r

theorem destroyVideos_lookup (order : List String) (r : Run) (k : String) :
    (destroyVideos order r).manager.videos.lookup k =
      (r.manager.videos.lookup k).map
        (fun v => if k ∈ order ∧ v.Started = true then v.destroyPipeline else v) := by
  induction order generalizing r with
  | nil => simp [destroyVideos]
  | cons id ids ih =>
    unfold destroyVideos
    cases hl : r.manager.videos.lookup id with
    | none =>
      simp only [ih]
      by_cases hk : k = id
      · subst hk; simp [hl]
      · simp [hk]
    | some video =>
      by_cases hst : video.Started = true
      · simp only [hst, if_true, ih, setVideo_lookup]
        by_cases hk : k = id
        · subst hk
          have h1 : video.destroyPipeline.Started = video.Started := rfl
          have h2 : video.destroyPipeline.destroyPipeline = video.destroyPipeline := rfl
          simp [hl, hst, h1, h2]
        · simp [hk]
      · simp only [hst, if_false]
        by_cases hk : k = id
        · subst hk; simp [hl, hst, ih]
        · simp [hk, ih]


theorem mem_keys_of_lookup (m : CaptureManagerCtx) (id : String) (v : StreamManagerCtx)
    (h : m.videos.lookup id = some v) : id ∈ m.keys := by
  have h1 : (m.videos.lookup id).isSome = true := by simp [h]
  rw [List.lookup_isSome_iff] at h1
  obtain ⟨p, hp, hk⟩ := h1
  have : id = p.1 := by simpa using hk
  rw [this]
  exact List.mem_map_of_mem _ hp

theorem not_mem_keys_of_lookup (m : CaptureManagerCtx) (id : String)
    (h : m.videos.lookup id = none) : id ∉ m.keys := by
  rw [List.lookup_eq_none_iff] at h
  intro hm
  obtain ⟨p, hp, hk⟩ := List.mem_map.1 hm
  have := h p hp
  simp [hk] at this

theorem count_video_calls (l : List String) (id : String) :
    (l.map ManagerRef.video).count (ManagerRef.video id) = l.count id :=
  List.count_map_of_injective l ManagerRef.video (fun a b h => by injection h) id

theorem count_other_calls (l : List String) (x : ManagerRef) (hx : ∀ id, x ≠ ManagerRef.video id) :
    (l.map ManagerRef.video).count x = 0 := by
  apply List.count_eq_zero_of_not_mem
  intro h
  obtain ⟨id, _, e⟩ := List.mem_map.1 h
  exact hx id e.symm

theorem count_started (m : CaptureManagerCtx) (order : List String) (id : String)
    (hk : m.keys.Nodup) (ho : order.Perm m.keys) :
    ((order.filter m.startedAt).map ManagerRef.video).count (ManagerRef.video id) =
      if id ∈ m.keys ∧ m.startedAt id = true then 1 else 0 := by
  rw [count_video_calls]
  by_cases hs : m.startedAt id = true
  · rw [List.count_filter hs, ho.count_eq]
    by_cases hm : id ∈ m.keys
    · simp [hm, hs, List.count_eq_one_of_mem hk hm]
    · simp [hm, List.count_eq_zero_of_not_mem hm]
  · have : id ∉ order.filter m.startedAt := by
      intro h
      exact hs (List.mem_filter.1 h).2
    simp [hs, List.count_eq_zero_of_not_mem this]

theorem destroyBroadcast_calls (r : Run) :
    (destroyBroadcast r).calls =
      r.calls ++ (if r.manager.broadcast.Started = true then [ManagerRef.broadcast] else []) := by
  unfold destroyBroadcast
  by_cases h : r.manager.broadcast.Started = true <;> simp [h]

theorem destroyBroadcast_frame (r : Run) :
    (destroyBroadcast r).panic = r.panic ∧
    (destroyBroadcast r).manager.videos = r.manager.videos ∧
    (destroyBroadcast r).manager.screencast = r.manager.screencast ∧
    (destroyBroadcast r).manager.audio = r.manager.audio ∧
    (destroyBroadcast r).manager.videoIDs = r.manager.videoIDs ∧
    (destroyBroadcast r).manager.broadcast =
      (if r.manager.broadcast.Started = true then r.manager.broadcast.destroyPipeline
       else r.manager.broadcast) := by
  unfold destroyBroadcast
  by_cases h : r.manager.broadcast.Started = true <;> simp [h]

theorem destroyScreencast_calls (r : Run) :
    (destroyScreencast r).calls =
      r.calls ++ (if r.manager.screencast.Started = true then [ManagerRef.screencast] else []) := by
  unfold destroyScreencast
  by_cases h : r.manager.screencast.Started = true <;> simp [h]

theorem destroyScreencast_frame (r : Run) :
    (destroyScreencast r).panic = r.panic ∧
    (destroyScreencast r).manager.videos = r.manager.videos ∧
    (destroyScreencast r).manager.broadcast = r.manager.broadcast ∧
    (destroyScreencast r).manager.audio = r.manager.audio ∧
    (destroyScreencast r).manager.videoIDs = r.manager.videoIDs ∧
    (destroyScreencast r).manager.screencast =
      (if r.manager.screencast.Started = true then r.manager.screencast.destroyPipeline
       else r.manager.screencast) := by
  unfold destroyScreencast
  by_cases h : r.manager.screencast.Started = true <;> simp [h]

/-- The calls and the state that the before-resize listener leaves behind. -/
theorem before_resize_run (order : List String) (m : CaptureManagerCtx) :
    (OnBeforeScreenSizeChange order m).calls =
      (order.filter m.startedAt).map ManagerRef.video ++
        (if m.broadcast.Started = true then [ManagerRef.broadcast] else []) ++
        (if m.screencast.Started = true then [ManagerRef.screencast] else []) ∧
    (OnBeforeScreenSizeChange order m).panic = none ∧
    (∀ k, (OnBeforeScreenSizeChange order m).manager.videos.lookup k =
      (m.videos.lookup k).map
        (fun v => if k ∈ order ∧ v.Started = true then v.destroyPipeline else v)) ∧
    (OnBeforeScreenSizeChange order m).manager.broadcast =
      (if m.broadcast.Started = true then m.broadcast.destroyPipeline else m.broadcast) ∧
    (OnBeforeScreenSizeChange order m).manager.screencast =
      (if m.screencast.Started = true then m.screencast.destroyPipeline else m.screencast) ∧
    (OnBeforeScreenSizeChange order m).manager.audio = m.audio ∧
    (OnBeforeScreenSizeChange order m).manager.videoIDs = m.videoIDs ∧
    (OnBeforeScreenSizeChange order m).manager.keys = m.keys := by
  have hc := destroyVideos_calls order { manager := m, calls := [], panic := none }
  obtain ⟨f1, f2, f3, f4, f5, f6⟩ :=
    destroyVideos_frame order { manager := m, calls := [], panic := none }
  have hl := destroyVideos_lookup order { manager := m, calls := [], panic := none }
  obtain ⟨b1, b2, b3, b4, b5, b6⟩ :=
    destroyBroadcast_frame (destroyVideos order { manager := m, calls := [], panic := none })
  obtain ⟨s1, s2, s3, s4, s5, s6⟩ := destroyScreencast_frame
    (destroyBroadcast (destroyVideos order { manager := m, calls := [], panic := none }))
  unfold OnBeforeScreenSizeChange
  refine ⟨?_, ?_, ?_, ?_, ?_, ?_, ?_, ?_⟩
  · rw [destroyScreencast_calls, destroyBroadcast_calls, hc, b3, f2, f3]
    simp
  · rw [s1, b1, f1]
  · intro k
    rw [s2, b2, hl]
  · rw [s3, b6, f2]
  · rw [s6, b3, f3]
  · rw [s4, b4, f4]
  · rw [s5, b5, f5]
  · unfold keys at f6 ⊢
    rw [s2, b2, f6]

/-- C6: when the before-resize listener runs (the keys of the map are visited in any order),
`destroyPipeline` is called exactly once on every video tier, on the broadcast manager and on the
screencast manager whose `Started()` is true, and on no manager whose `Started()` is false (never
on the audio manager); the listener does not panic and leaves every subscriber set and every
forced-start flag as it was. -/
theorem before_resize_destroys_started (m : CaptureManagerCtx) (order : List String)
    (hk : m.keys.Nodup) (ho : order.Perm m.keys) :
    (OnBeforeScreenSizeChange order m).panic = none ∧
    (∀ id v, m.videos.lookup id = some v →
      (OnBeforeScreenSizeChange order m).calls.count (ManagerRef.video id) =
        if v.Started = true then 1 else 0) ∧
    (∀ id, m.videos.lookup id = none →
      (OnBeforeScreenSizeChange order m).calls.count (ManagerRef.video id) = 0) ∧
    (OnBeforeScreenSizeChange order m).calls.count ManagerRef.broadcast =
      (if m.broadcast.Started = true then 1 else 0) ∧
    (OnBeforeScreenSizeChange order m).calls.count ManagerRef.screencast =
      (if m.screencast.Started = true then 1 else 0) ∧
    (OnBeforeScreenSizeChange order m).calls.count ManagerRef.audio = 0 ∧
    (∀ id v, m.videos.lookup id = some v →
      ∃ w, (OnBeforeScreenSizeChange order m).manager.videos.lookup id = some w ∧
        w.subscribers = v.subscribers ∧ w.forced = v.forced) ∧
    (OnBeforeScreenSizeChange order m).manager.broadcast.forced = m.broadcast.forced ∧
    (OnBeforeScreenSizeChange order m).manager.screencast.forced = m.screencast.forced ∧
    (OnBeforeScreenSizeChange order m).manager.audio.subscribers = m.audio.subscribers ∧
    (OnBeforeScreenSizeChange order m).manager.audio.forced = m.audio.forced := by
  obtain ⟨hc, hp, hl, hb, hs, ha, -, -⟩ := before_resize_run order m
  have hvid : ∀ id, (OnBeforeScreenSizeChange order m).calls.count (ManagerRef.video id) =
      if id ∈ m.keys ∧ m.startedAt id = true then 1 else 0 := by
    intro id
    rw [← count_started m order id hk ho, hc]
    by_cases h1 : m.broadcast.Started = true <;> by_cases h2 : m.screencast.Started = true <;>
      simp [h1, h2, List.count_append]
  refine ⟨hp, ?_, ?_, ?_, ?_, ?_, ?_, ?_, ?_, ?_, ?_⟩
  · intro id v hv
    rw [hvid id]
    have hm := mem_keys_of_lookup m id v hv
    simp [hm, startedAt, hv]
  · intro id hv
    rw [hvid id]
    simp [not_mem_keys_of_lookup m id hv]
  · rw [hc]
    have h0 := count_other_calls (order.filter m.startedAt) ManagerRef.broadcast (by intro id h; cases h)
    by_cases h1 : m.broadcast.Started = true <;> by_cases h2 : m.screencast.Started = true <;>
      simp [h1, h2, List.count_append, h0]
  · rw [hc]
    have h0 := count_other_calls (order.filter m.startedAt) ManagerRef.screencast (by intro id h; cases h)
    by_cases h1 : m.broadcast.Started = true <;> by_cases h2 : m.screencast.Started = true <;>
      simp [h1, h2, List.count_append, h0]
  · rw [hc]
    have h0 := count_other_calls (order.filter m.startedAt) ManagerRef.audio (by intro id h; cases h)
    by_cases h1 : m.broadcast.Started = true <;> by_cases h2 : m.screencast.Started = true <;>
      simp [h1, h2, List.count_append, h0]
  · intro id v hv
    rw [hl id, hv]
    refine ⟨_, rfl, ?_, ?_⟩ <;> (dsimp only; split_ifs <;> rfl)
  · rw [hb]; split_ifs <;> rfl
  · rw [hs]
    unfold ScreencastManagerCtx.destroyPipeline
    split_ifs <;> rfl
  · rw [ha]
  · rw [ha]


/-! ## The after-resize listener -/

theorem createPipeline_Started (engine : String → Bool) (screen : ScreenSize)
    (v : StreamManagerCtx) : (v.createPipeline engine screen).1.Started = v.Started := by
  unfold StreamManagerCtx.createPipeline
  cases hp : v.pipeline with
  | some d => rfl
  | none =>
    by_cases he : engine (v.pipelineStr screen) = true
    · simp [he, StreamManagerCtx.Started]
    · simp [he]

theorem createVideos_static (engine : ManagerRef → String → Bool) (screen : ScreenSize)
    (order : List String) (r : Run) :
    (createVideos engine screen order r).manager.broadcast = r.manager.broadcast ∧
    (createVideos engine screen order r).manager.screencast = r.manager.screencast ∧
    (createVideos engine screen order r).manager.audio = r.manager.audio ∧
    (createVideos engine screen order r).manager.videoIDs = r.manager.videoIDs ∧
    (createVideos engine screen order r).manager.keys = r.manager.keys := by
  induction order generalizing r with
  | nil => simp [createVideos]
  | cons id ids ih =>
    unfold createVideos
    cases hl : r.manager.videos.lookup id with
    | none => simpa using ih r
    | some video =>
      by_cases hst : video.Started = true
      · simp only [hst, if_true]
        cases he : (video.createPipeline (engine (ManagerRef.video id)) screen).2 with
        | some e => simp [setVideo_keys]; exact ⟨rfl, rfl, rfl, rfl⟩
        | none =>
          have h := ih { r with
            manager := r.manager.setVideo id (video.createPipeline (engine (ManagerRef.video id)) screen).1,
            calls := r.calls ++ [ManagerRef.video id] }
          simpa [setVideo_keys] using h
      · simpa [hst] using ih r

/-- The loop of the after-resize listener when no `createPipeline` fails. -/
theorem createVideos_ok (engine : ManagerRef → String → Bool) (screen : ScreenSize)
    (order : List String) (r : Run) (hn : order.Nodup)
    (hb : allBuilt engine screen r.manager order) :
    (createVideos engine screen order r).calls =
      r.calls ++ (order.filter r.manager.startedAt).map ManagerRef.video ∧
    (createVideos engine screen order r).panic = r.panic ∧
    ∀ k, (createVideos engine screen order r).manager.videos.lookup k =
      (r.manager.videos.lookup k).map
        (fun v => if k ∈ order ∧ v.Started = true
          then (v.createPipeline (engine (ManagerRef.video k)) screen).1 else v) := by
  induction order generalizing r with
  | nil => simp [createVideos]
  | cons id ids ih =>
    have hid : id ∉ ids := (List.nodup_cons.1 hn).1
    have hn' : ids.Nodup := (List.nodup_cons.1 hn).2
    unfold createVideos
    cases hl : r.manager.videos.lookup id with
    | none =>
      have hs : r.manager.startedAt id = false := by simp [startedAt, hl]
      obtain ⟨c, p, l⟩ := ih r hn' (fun i hi => hb i (List.mem_cons_of_mem _ hi))
      refine ⟨by simp [c, hs], by simpa using p, fun k => ?_⟩
      simp only [l]
      by_cases hk : k = id
      · subst hk; simp [hl]
      · simp [hk]
    | some video =>
      by_cases hst : video.Started = true
      · have hs : r.manager.startedAt id = true := by simp [startedAt, hl, hst]
        have he := hb id (List.mem_cons_self _ _) video hl hst
        simp only [hst, if_true, he]
        have hb' : allBuilt engine screen
            (r.manager.setVideo id (video.createPipeline (engine (ManagerRef.video id)) screen).1) ids := by
          intro i hi v hv
          have hne : i ≠ id := fun h => hid (h ▸ hi)
          rw [setVideo_lookup, if_neg hne] at hv
          exact hb i (List.mem_cons_of_mem _ hi) v hv
        obtain ⟨c, p, l⟩ := ih { r with
            manager := r.manager.setVideo id (video.createPipeline (engine (ManagerRef.video id)) screen).1,
            calls := r.calls ++ [ManagerRef.video id] } hn' hb'
        refine ⟨?_, by simpa using p, fun k => ?_⟩
        · rw [c]
          simp only [startedAt_setVideo r.manager id video _ hl (createPipeline_Started _ _ _)]
          simp [hs]
        · rw [l]
          simp only [setVideo_lookup]
          by_cases hk : k = id
          · subst hk
            simp [hl, hst, hid]
          · simp [hk]
      · have hs : r.manager.startedAt id = false := by simp [startedAt, hl, hst]
        obtain ⟨c, p, l⟩ := ih r hn' (fun i hi => hb i (List.mem_cons_of_mem _ hi))
        simp only [if_neg hst]
        refine ⟨by simp [c, hs], by simpa using p, fun k => ?_⟩
        simp only [l]
        by_cases hk : k = id
        · subst hk; simp [hl, hst]
        · simp [hk]

/-- A loop that ended without a panic met no failing `createPipeline`. -/
theorem createVideos_no_panic (engine : ManagerRef → String → Bool) (screen : ScreenSize)
    (order : List String) (r : Run) (hn : order.Nodup)
    (hp : (createVideos engine screen order r).panic = none) :
    allBuilt engine screen r.manager order := by
  induction order generalizing r with
  | nil => intro i hi; cases hi
  | cons id ids ih =>
    have hid : id ∉ ids := (List.nodup_cons.1 hn).1
    have hn' : ids.Nodup := (List.nodup_cons.1 hn).2
    unfold createVideos at hp
    intro i hi v hv hst
    cases hl : r.manager.videos.lookup id with
    | none =>
      rw [hl] at hp
      rcases List.mem_cons.1 hi with h | h
      · subst h; rw [hl] at hv; cases hv
      · exact ih r hn' hp i h v hv hst
    | some video =>
      rw [hl] at hp
      by_cases hvs : video.Started = true
      · simp only [hvs, if_true] at hp
        cases he : (video.createPipeline (engine (ManagerRef.video id)) screen).2 with
        | some e => rw [he] at hp; cases hp
        | none =>
          rw [he] at hp
          rcases List.mem_cons.1 hi with h | h
          · subst h
            rw [hl] at hv
            cases hv
            exact he
          · have hne : i ≠ id := fun e => hid (e ▸ h)
            refine ih _ hn' hp i h v ?_ hst
            rw [setVideo_lookup, if_neg hne]
            exact hv
      · simp only [if_neg hvs] at hp
        rcases List.mem_cons.1 hi with h | h
        · subst h
          rw [hl] at hv
          cases hv
          exact absurd hst hvs
        · exact ih r hn' hp i h v hv hst

/-- The loop of the after-resize listener stops at the first failing `createPipeline`. -/
theorem createVideos_fail (engine : ManagerRef → String → Bool) (screen : ScreenSize)
    (pre post : List String) (id : String) (r : Run) (v : StreamManagerCtx) (e : CaptureError)
    (hn : (pre ++ id :: post).Nodup) (hb : allBuilt engine screen r.manager pre)
    (hl : r.manager.videos.lookup id = some v) (hs : v.Started = true)
    (he : (v.createPipeline (engine (ManagerRef.video id)) screen).2 = some e) :
    createVideos engine screen (pre ++ id :: post) r =
      { manager := (createVideos engine screen pre r).manager.setVideo id
          (v.createPipeline (engine (ManagerRef.video id)) screen).1,
        calls := (createVideos engine screen pre r).calls ++ [ManagerRef.video id],
        panic := some "unable to recreate video pipeline" } := by
  induction pre generalizing r with
  | nil =>
    simp only [List.nil_append]
    unfold createVideos
    simp [hl, hs, he, createVideos]
  | cons p ps ih =>
    have hn1 := List.nodup_cons.1 (by simpa using hn : (p :: (ps ++ id :: post)).Nodup)
    have hpid : p ≠ id := fun h => hn1.1 (by simp [h])
    have hpps : p ∉ ps := fun h => hn1.1 (by simp [h])
    simp only [List.cons_append]
    rw [createVideos, createVideos]
    cases hlp : r.manager.videos.lookup p with
    | none =>
      exact ih r hn1.2 (fun i hi => hb i (List.mem_cons_of_mem _ hi)) hl
    | some w =>
      by_cases hws : w.Started = true
      · have hwe := hb p (List.mem_cons_self _ _) w hlp hws
        simp only [hws, if_true, hwe]
        refine ih _ hn1.2 ?_ ?_
        · intro i hi u hu
          have hne : i ≠ p := fun h => hpps (h ▸ hi)
          rw [setVideo_lookup, if_neg hne] at hu
          exact hb i (List.mem_cons_of_mem _ hi) u hu
        · rw [setVideo_lookup, if_neg (Ne.symm hpid)]
          exact hl
      · simp only [if_neg hws]
        exact ih r hn1.2 (fun i hi => hb i (List.mem_cons_of_mem _ hi)) hl

theorem createBroadcast_static (engine : ManagerRef → String → Bool) (message : String)
    (r : Run) :
    (createBroadcast engine message r).manager.videos = r.manager.videos ∧
    (createBroadcast engine message r).manager.videoIDs = r.manager.videoIDs ∧
    (createBroadcast engine message r).manager.screencast = r.manager.screencast ∧
    (createBroadcast engine message r).manager.audio = r.manager.audio := by
  unfold createBroadcast
  by_cases h : r.manager.broadcast.Started = true
  · simp only [h, if_true]
    cases (r.manager.broadcast.createPipeline (engine ManagerRef.broadcast)).2 <;>
      exact ⟨rfl, rfl, rfl, rfl⟩
  · rw [if_neg h]
    exact ⟨rfl, rfl, rfl, rfl⟩

theorem createScreencast_static (engine : ManagerRef → String → Bool) (r : Run) :
    (createScreencast engine r).manager.videos = r.manager.videos ∧
    (createScreencast engine r).manager.videoIDs = r.manager.videoIDs ∧
    (createScreencast engine r).manager.broadcast = r.manager.broadcast ∧
    (createScreencast engine r).manager.audio = r.manager.audio := by
  unfold createScreencast
  by_cases h : r.manager.screencast.Started = true
  · simp only [h, if_true]
    cases (r.manager.screencast.createPipeline (engine ManagerRef.screencast)).2 <;>
      exact ⟨rfl, rfl, rfl, rfl⟩
  · rw [if_neg h]
    exact ⟨rfl, rfl, rfl, rfl⟩

/-- The after-resize listener leaves the video managers as its loop over the map left them. -/
theorem after_resize_videos (order : List String) (engine : ManagerRef → String → Bool)
    (screen : ScreenSize) (m : CaptureManagerCtx) :
    (OnAfterScreenSizeChange order engine screen m).manager.videos =
      (createVideos engine screen order { manager := m, calls := [], panic := none }).manager.videos ∧
    (OnAfterScreenSizeChange order engine screen m).manager.videoIDs = m.videoIDs := by
  have hv := (createVideos_static engine screen order { manager := m, calls := [], panic := none }).2.2.2.1
  obtain ⟨b1, b2, -, -⟩ := createBroadcast_static engine "unable to recreate broadcast pipeline"
    (createVideos engine screen order { manager := m, calls := [], panic := none })
  obtain ⟨s1, s2, -, -⟩ := createScreencast_static engine
    (createBroadcast engine "unable to recreate broadcast pipeline"
      (createVideos engine screen order { manager := m, calls := [], panic := none }))
  unfold OnAfterScreenSizeChange
  dsimp only
  split
  · exact ⟨rfl, hv⟩
  · split
    · exact ⟨b1, b2.trans hv⟩
    · exact ⟨s1.trans b1, s2.trans (b2.trans hv)⟩

/-- A listener that did not panic got through its loop over the map without a panic. -/
theorem after_resize_no_panic (order : List String) (engine : ManagerRef → String → Bool)
    (screen : ScreenSize) (m : CaptureManagerCtx)
    (h : (OnAfterScreenSizeChange order engine screen m).panic = none) :
    (createVideos engine screen order { manager := m, calls := [], panic := none }).panic = none := by
  unfold OnAfterScreenSizeChange at h
  dsimp only at h
  split at h
  · rename_i msg hp
    rw [hp] at h
    cases h
  · assumption

/-- A panic in the loop over the map ends the listener. -/
theorem after_resize_video_panic (order : List String) (engine : ManagerRef → String → Bool)
    (screen : ScreenSize) (m : CaptureManagerCtx) (msg : String)
    (h : (createVideos engine screen order { manager := m, calls := [], panic := none }).panic =
      some msg) :
    OnAfterScreenSizeChange order engine screen m =
      createVideos engine screen order { manager := m, calls := [], panic := none } := by
  unfold OnAfterScreenSizeChange
  dsimp only
  rw [h]

theorem bindings_lookup (m : CaptureManagerCtx) (id : String) :
    m.bindings.lookup id = (m.videos.lookup id).map (fun v => v.pipelineStr) := by
  unfold bindings
  induction m.videos with
  | nil => rfl
  | cons e l ih =>
    obtain ⟨a, b⟩ := e
    rw [List.map_cons, List.lookup_cons, List.lookup_cons, ih]
    cases id == a <;> rfl

theorem bindings_keys (m : CaptureManagerCtx) : m.bindings.map Prod.fst = m.keys := by
  unfold bindings keys
  rw [List.map_map]
  rfl

theorem built_keys (vp8 : RTPCodec) (config : Config) (m : CaptureManagerCtx)
    (hbuilt : m.bindings = (New vp8 config).bindings) : m.keys = ["hd", "hq", "mq", "lq"] := by
  rw [← bindings_keys, hbuilt]
  rfl

theorem built_lookup (vp8 : RTPCodec) (config : Config) (m : CaptureManagerCtx)
    (hbuilt : m.bindings = (New vp8 config).bindings) (id : String) (v : StreamManagerCtx)
    (hv : m.videos.lookup id = some v) :
    (id = "hd" ∧ v.pipelineStr = hdPipelineStr config) ∨
    (id = "hq" ∧ v.pipelineStr = hqPipelineStr config) ∨
    (id = "mq" ∧ v.pipelineStr = mqPipelineStr config) ∨
    (id = "lq" ∧ v.pipelineStr = lqPipelineStr config) := by
  have h := bindings_lookup m id
  rw [hv, hbuilt] at h
  simp only [Option.map_some'] at h
  have hm : id ∈ m.keys := mem_keys_of_lookup m id v hv
  rw [built_keys vp8 config m hbuilt] at hm
  simp only [List.mem_cons, List.mem_singleton, List.not_mem_nil, or_false] at hm
  rcases hm with rfl | rfl | rfl | rfl
  · left; refine ⟨rfl, ?_⟩
    have : (New vp8 config).bindings.lookup "hd" = some (hdPipelineStr config) := rfl
    rw [this] at h; exact (Option.some.inj h).symm
  · right; left; refine ⟨rfl, ?_⟩
    have : (New vp8 config).bindings.lookup "hq" = some (hqPipelineStr config) := rfl
    rw [this] at h; exact (Option.some.inj h).symm
  · right; right; left; refine ⟨rfl, ?_⟩
    have : (New vp8 config).bindings.lookup "mq" = some (mqPipelineStr config) := rfl
    rw [this] at h; exact (Option.some.inj h).symm
  · right; right; right; refine ⟨rfl, ?_⟩
    have : (New vp8 config).bindings.lookup "lq" = some (lqPipelineStr config) := rfl
    rw [this] at h; exact (Option.some.inj h).symm

/-- The closures that `Start` registers are the two listeners. -/
theorem start_registers (engine : ManagerRef → String → Bool) (m : CaptureManagerCtx)
    (ls : Listeners) (h : (Start engine m).2 = some ls) :
    ls.before = OnBeforeScreenSizeChange ∧ ls.after = OnAfterScreenSizeChange := by
  unfold Start at h
  dsimp only at h
  split at h
  · cases h
  · cases h
    exact ⟨rfl, rfl⟩

/-- With an engine that builds every graph, no `createPipeline` of a video manager fails. -/
theorem allBuilt_of_engine (engine : ManagerRef → String → Bool) (screen : ScreenSize)
    (m : CaptureManagerCtx) (ids : List String) (he : ∀ ref d, engine ref d = true) :
    allBuilt engine screen m ids := by
  intro id _ v _ _
  unfold StreamManagerCtx.createPipeline
  cases v.pipeline with
  | some d => rfl
  | none => simp [he]

/-- With an engine that builds every graph, the after-resize listener does not panic. -/
theorem after_resize_returns (order : List String) (engine : ManagerRef → String → Bool)
    (screen : ScreenSize) (m : CaptureManagerCtx) (hn : order.Nodup)
    (he : ∀ ref d, engine ref d = true) :
    (OnAfterScreenSizeChange order engine screen m).panic = none := by
  have h1 : (createVideos engine screen order { manager := m, calls := [], panic := none }).panic =
      none :=
    (createVideos_ok engine screen order { manager := m, calls := [], panic := none } hn
      (allBuilt_of_engine engine screen m order he)).2.1
  have hb : ∀ (msg : String) (r : Run), r.panic = none →
      (createBroadcast engine msg r).panic = none := by
    intro msg r hr
    unfold createBroadcast BroacastManagerCtx.createPipeline
    by_cases hs : r.manager.broadcast.Started = true
    · cases hp : r.manager.broadcast.pipeline <;> simp [hs, hp, he, hr]
    · simp [hs, hr]
  have hs : ∀ (r : Run), r.panic = none → (createScreencast engine r).panic = none := by
    intro r hr
    unfold createScreencast ScreencastManagerCtx.createPipeline
    by_cases hs : r.manager.screencast.Started = true
    · cases hp : r.manager.screencast.pipeline <;>
        cases hen : r.manager.screencast.enabled <;> simp [hs, hp, he, hr, hen]
    · simp [hs, hr]
  unfold OnAfterScreenSizeChange
  dsimp only
  rw [h1]
  dsimp only
  rw [hb _ _ h1]
  exact hs _ (hb _ _ h1)

/-- What the two listeners leave under a key whose manager has subscribers, when the second one
did not panic. -/
theorem round_trip_lookup (m : CaptureManagerCtx) (first second : List String)
    (engine : ManagerRef → String → Bool) (screen : ScreenSize)
    (hn : m.keys.Nodup) (h1 : first.Perm m.keys) (h2 : second.Perm m.keys)
    (hp : (OnAfterScreenSizeChange second engine screen
      (OnBeforeScreenSizeChange first m).manager).panic = none)
    (id : String) (v : StreamManagerCtx) (hv : m.videos.lookup id = some v)
    (hs : v.Started = true) :
    (OnAfterScreenSizeChange second engine screen
      (OnBeforeScreenSizeChange first m).manager).manager.videos.lookup id =
      some { v with pipeline := some (v.pipelineStr screen) } := by
  obtain ⟨-, -, hl1, -, -, -, -, hk1⟩ := before_resize_run first m
  have hmem : id ∈ m.keys := mem_keys_of_lookup m id v hv
  have hm1 : id ∈ first := h1.mem_iff.2 hmem
  have hm2 : id ∈ second := h2.mem_iff.2 hmem
  have hn2 : second.Nodup := h2.nodup_iff.2 hn
  have hb := createVideos_no_panic engine screen second
    { manager := (OnBeforeScreenSizeChange first m).manager, calls := [], panic := none } hn2
    (after_resize_no_panic second engine screen _ hp)
  obtain ⟨-, -, hl2⟩ := createVideos_ok engine screen second
    { manager := (OnBeforeScreenSizeChange first m).manager, calls := [], panic := none } hn2 hb
  have hd : (OnBeforeScreenSizeChange first m).manager.videos.lookup id =
      some v.destroyPipeline := by
    rw [hl1 id, hv]
    simp [hm1, hs]
  have hds : v.destroyPipeline.Started = true := hs
  have he := hb id hm2 v.destroyPipeline hd hds
  rw [(after_resize_videos second engine screen _).1, hl2 id, hd]
  simp only [Option.map_some', hm2, hds, and_self, if_true]
  unfold StreamManagerCtx.createPipeline at he ⊢
  simp only [StreamManagerCtx.destroyPipeline] at he ⊢
  by_cases hok : engine (ManagerRef.video id) (v.pipelineStr screen) = true
  · simp [hok]
  · simp [hok] at he

/-- C4: resize round-trip. Take a capture manager built by `New`, in any state, and let the
before-resize listener and then the after-resize listener run (`first` and `second` are the
orders in which `range` visits the keys of the map; `screen` is the size reported after the
resize). When the engine builds every graph the second listener returns without a panic; and
whenever it returns without a panic, every video tier that had subscribers before the resize has
its pipeline started again, keeps its subscribers, and holds the descriptor that its descriptor
function builds from the new screen size: its target-bitrate is base, base/2, base/3 or base/4
for hd, hq, mq or lq, where base is Go's `(Width * Height * 6) / 4` on the new width and height
(64-bit products, truncated division). Base is the exact integer quotient whenever the product
fits Go's `int`; it is 1382400 at 1280x720 and 3110400 at 1920x1080. -/
theorem resize_round_trip (vp8 : RTPCodec) (config : Config) (m : CaptureManagerCtx)
    (first second : List String) (engine : ManagerRef → String → Bool) (screen : ScreenSize)
    (hbuilt : m.bindings = (New vp8 config).bindings)
    (h1 : first.Perm m.keys) (h2 : second.Perm m.keys) :
    ((∀ ref d, engine ref d = true) →
      (OnAfterScreenSizeChange second engine screen
        (OnBeforeScreenSizeChange first m).manager).panic = none) ∧
    ((OnAfterScreenSizeChange second engine screen
        (OnBeforeScreenSizeChange first m).manager).panic = none →
      ∀ id v, m.videos.lookup id = some v → v.subscribers ≠ [] →
      ∃ w, (OnAfterScreenSizeChange second engine screen
          (OnBeforeScreenSizeChange first m).manager).manager.videos.lookup id = some w ∧
        w.subscribers = v.subscribers ∧ w.started = true ∧
        w.pipeline = some (v.pipelineStr screen) ∧
        ∃ size initial optimal,
          (id = "hd" ∧ w.pipeline =
            some (videoDescriptor config.Display "25/1"
              (Int.tdiv (wrapInt (wrapInt (screen.Width * screen.Height) * 6)) 4)
              size initial optimal)) ∨
          (id = "hq" ∧ w.pipeline =
            some (videoDescriptor config.Display "15/1"
              (Int.tdiv (Int.tdiv (wrapInt (wrapInt (screen.Width * screen.Height) * 6)) 4) 2)
              size initial optimal)) ∨
          (id = "mq" ∧ w.pipeline =
            some (videoDescriptor config.Display "10/1"
              (Int.tdiv (Int.tdiv (wrapInt (wrapInt (screen.Width * screen.Height) * 6)) 4) 3)
              size initial optimal)) ∨
          (id = "lq" ∧ w.pipeline =
            some (videoDescriptor config.Display "5/1"
              (Int.tdiv (Int.tdiv (wrapInt (wrapInt (screen.Width * screen.Height) * 6)) 4) 4)
              size initial optimal))) ∧
    (-(2 : Int) ^ 63 ≤ screen.Width * screen.Height * 6 →
      screen.Width * screen.Height * 6 < (2 : Int) ^ 63 →
      Int.tdiv (wrapInt (wrapInt (screen.Width * screen.Height) * 6)) 4 =
        Int.tdiv (screen.Width * screen.Height * 6) 4) ∧
    Int.tdiv (wrapInt (wrapInt (1280 * 720) * 6)) 4 = 1382400 ∧
    Int.tdiv (wrapInt (wrapInt (1920 * 1080) * 6)) 4 = 3110400 := by
  have hk := built_keys vp8 config m hbuilt
  have hn : m.keys.Nodup := by rw [hk]; decide
  refine ⟨fun he => after_resize_returns second engine screen _ (h2.nodup_iff.2 hn) he, ?_, ?_,
    by decide, by decide⟩
  · intro hp id v hv hs
    have hst : v.Started = true := by
      unfold StreamManagerCtx.Started
      cases hsub : v.subscribers with
      | nil => exact absurd hsub hs
      | cons a l => rfl
    refine ⟨_, round_trip_lookup m first second engine screen hn h1 h2 hp id v hv hst,
      rfl, rfl, rfl, ?_⟩
    have t1 := hd_render config screen
    have t2 := hq_render config screen
    have t3 := mq_render config screen
    have t4 := lq_render config screen
    have b1 : hdBitrate screen =
        Int.tdiv (wrapInt (wrapInt (screen.Width * screen.Height) * 6)) 4 :=
      goDiv_small _ 4 (by norm_num) (wrapInt_bounds _).1 (wrapInt_bounds _).2
    have b2 : hqBitrate screen = Int.tdiv (hdBitrate screen) 2 := goDiv_hd screen 2 (by norm_num)
    have b3 : mqBitrate screen = Int.tdiv (hdBitrate screen) 3 := goDiv_hd screen 3 (by norm_num)
    have b4 : lqBitrate screen = Int.tdiv (hdBitrate screen) 4 := goDiv_hd screen 4 (by norm_num)
    rw [b2] at t2
    rw [b3] at t3
    rw [b4] at t4
    rw [b1] at t1 t2 t3 t4
    rcases built_lookup vp8 config m hbuilt id v hv with ⟨e, f⟩ | ⟨e, f⟩ | ⟨e, f⟩ | ⟨e, f⟩
    · exact ⟨_, _, _, Or.inl ⟨e, by rw [f, t1]⟩⟩
    · exact ⟨_, _, _, Or.inr (Or.inl ⟨e, by rw [f, t2]⟩)⟩
    · exact ⟨_, _, _, Or.inr (Or.inr (Or.inl ⟨e, by rw [f, t3]⟩))⟩
    · exact ⟨_, _, _, Or.inr (Or.inr (Or.inr ⟨e, by rw [f, t4]⟩))⟩
  · intro c1 c2
    norm_num at c1 c2
    rw [wrapInt_eq_self (screen.Width * screen.Height) (by omega) (by omega),
      wrapInt_eq_self _ c1 c2]

theorem createPipeline_failed (engine : String → Bool) (screen : ScreenSize)
    (v : StreamManagerCtx) (e : CaptureError)
    (h : (v.createPipeline engine screen).2 = some e) : (v.createPipeline engine screen).1 = v := by
  unfold StreamManagerCtx.createPipeline at h ⊢
  cases hp : v.pipeline with
  | some d => rfl
  | none =>
    rw [hp] at h
    by_cases he : engine (v.pipelineStr screen) = true
    · simp [he] at h
    · simp [he]

theorem createPipeline_built (engine : String → Bool) (screen : ScreenSize)
    (v : StreamManagerCtx)
    (h : (v.createPipeline engine screen).2 = none) :
    (v.createPipeline engine screen).1.started = true := by
  unfold StreamManagerCtx.createPipeline at h ⊢
  cases hp : v.pipeline with
  | some d => simp [StreamManagerCtx.started, hp]
  | none =>
    rw [hp] at h
    by_cases he : engine (v.pipelineStr screen) = true
    · simp [he, StreamManagerCtx.started]
    · simp [he] at h

/-- C5, amended: if the rebuild (`createPipeline`) of a started video tier fails in the
after-resize listener, the listener logs at panic level and panics on the spot. The started tiers
that the iteration over the map visited before it (and whose rebuild succeeded) have been rebuilt
and report `started() == true`; the failing tier stays without a pipeline; the tiers that come
after it in the iteration, the broadcast, the screencast and the audio manager are not attempted
and stay exactly as they were. -/
theorem rebuild_failure_panics (m : CaptureManagerCtx) (pre post : List String) (id : String)
    (engine : ManagerRef → String → Bool) (screen : ScreenSize) (v : StreamManagerCtx)
    (e : CaptureError)
    (hn : (pre ++ id :: post).Nodup) (hb : allBuilt engine screen m pre)
    (hv : m.videos.lookup id = some v) (hs : v.Started = true)
    (he : (v.createPipeline (engine (ManagerRef.video id)) screen).2 = some e) :
    (OnAfterScreenSizeChange (pre ++ id :: post) engine screen m).panic =
      some "unable to recreate video pipeline" ∧
    (OnAfterScreenSizeChange (pre ++ id :: post) engine screen m).calls =
      (pre.filter m.startedAt).map ManagerRef.video ++ [ManagerRef.video id] ∧
    (∀ k ∈ pre, ∀ u, m.videos.lookup k = some u → u.Started = true →
      ∃ w, (OnAfterScreenSizeChange (pre ++ id :: post) engine screen m).manager.videos.lookup k =
        some w ∧ w.started = true) ∧
    (OnAfterScreenSizeChange (pre ++ id :: post) engine screen m).manager.videos.lookup id =
      some v ∧
    (∀ k ∈ post,
      (OnAfterScreenSizeChange (pre ++ id :: post) engine screen m).manager.videos.lookup k =
        m.videos.lookup k) ∧
    (OnAfterScreenSizeChange (pre ++ id :: post) engine screen m).manager.broadcast = m.broadcast ∧
    (OnAfterScreenSizeChange (pre ++ id :: post) engine screen m).manager.screencast =
      m.screencast ∧
    (OnAfterScreenSizeChange (pre ++ id :: post) engine screen m).manager.audio = m.audio := by
  have hf := createVideos_fail engine screen pre post id
    { manager := m, calls := [], panic := none } v e hn hb hv hs he
  have hrun := after_resize_video_panic (pre ++ id :: post) engine screen m
    "unable to recreate video pipeline" (by rw [hf])
  rw [hrun, hf]
  have hnp : pre.Nodup := (List.nodup_append.1 hn).1
  have hdis : ∀ k, k ∈ pre → k ∈ id :: post → False := fun k h1 h2 =>
    (List.nodup_append.1 hn).2.2 h1 h2
  have hidpost : id ∉ post := (List.nodup_cons.1 (List.nodup_append.1 hn).2.1).1
  obtain ⟨c, -, l⟩ := createVideos_ok engine screen pre
    { manager := m, calls := [], panic := none } hnp hb
  obtain ⟨s1, s2, s3, -, -⟩ := createVideos_static engine screen pre
    { manager := m, calls := [], panic := none }
  refine ⟨rfl, ?_, ?_, ?_, ?_, s1, s2, s3⟩
  · simp only [c, List.nil_append]
  · intro k hk u hu hus
    have hne : k ≠ id := fun h => hdis k hk (by simp [h])
    refine ⟨(u.createPipeline (engine (ManagerRef.video k)) screen).1, ?_,
      createPipeline_built _ _ _ (hb k hk u hu hus)⟩
    simp only [setVideo_lookup, if_neg hne, l k, hu, Option.map_some', hk, hus, and_self, if_true]
  · have hnot : id ∉ pre := fun h => hdis id h (by simp)
    simp only [setVideo_lookup, if_true, l id, hv, Option.map_some', hnot, false_and, if_false]
    rw [createPipeline_failed _ _ _ e he]
  · intro k hk
    have hne : k ≠ id := fun h => hidpost (h ▸ hk)
    have hnot : k ∉ pre := fun h => hdis k h (List.mem_cons_of_mem _ hk)
    simp only [setVideo_lookup, if_neg hne, l k, hnot, false_and, if_false]
    cases m.videos.lookup k <;> rfl

/-! ## Shutdown -/

theorem present_setVideo (m : CaptureManagerCtx) (id : String) (w : StreamManagerCtx) :
    (m.setVideo id w).present = m.present := by
  funext k
  unfold present
  rw [setVideo_lookup]
  by_cases hk : k = id
  · subst hk; cases m.videos.lookup k <;> simp
  · simp [hk]

/-- The loop of `Shutdown` over the map. -/
theorem shutdownVideos_run (order : List String) (r : Run) :
    (shutdownVideos order r).calls =
      r.calls ++ (order.filter r.manager.present).map ManagerRef.video ∧
    (shutdownVideos order r).panic = r.panic ∧
    (shutdownVideos order r).manager.broadcast = r.manager.broadcast ∧
    (shutdownVideos order r).manager.screencast = r.manager.screencast ∧
    (shutdownVideos order r).manager.audio = r.manager.audio ∧
    (shutdownVideos order r).manager.videoIDs = r.manager.videoIDs ∧
    (shutdownVideos order r).manager.keys = r.manager.keys ∧
    ∀ k, (shutdownVideos order r).manager.videos.lookup k =
      (r.manager.videos.lookup k).map (fun v => if k ∈ order then v.shutdown else v) := by
  induction order generalizing r with
  | nil => simp [shutdownVideos]
  | cons id ids ih =>
    unfold shutdownVideos
    cases hl : r.manager.videos.lookup id with
    | none =>
      have hs : r.manager.present id = false := by simp [present, hl]
      obtain ⟨c, p, b, s, a, i, k, l⟩ := ih r
      refine ⟨by simp [c, hs], p, b, s, a, i, k, fun x => ?_⟩
      simp only [l]
      by_cases hx : x = id
      · subst hx; simp [hl]
      · simp [hx]
    | some video =>
      have hs : r.manager.present id = true := by simp [present, hl]
      obtain ⟨c, p, b, s, a, i, k, l⟩ := ih { r with
        manager := r.manager.setVideo id video.shutdown, calls := r.calls ++ [ManagerRef.video id] }
      refine ⟨?_, p, b, s, a, i, ?_, fun x => ?_⟩
      · simp only [c, present_setVideo]
        simp [hs]
      · simp only [k, setVideo_keys]
      · simp only [l, setVideo_lookup]
        by_cases hx : x = id
        · subst hx
          have h2 : video.shutdown.shutdown = video.shutdown := rfl
          simp [hl, h2]
        · simp [hx]

theorem count_present (m : CaptureManagerCtx) (order : List String) (id : String)
    (hk : m.keys.Nodup) (ho : order.Perm m.keys) :
    ((order.filter m.present).map ManagerRef.video).count (ManagerRef.video id) =
      if id ∈ m.keys then 1 else 0 := by
  rw [count_video_calls]
  by_cases hm : id ∈ m.keys
  · have hp : m.present id = true := by
      unfold present
      cases hl : m.videos.lookup id with
      | none => exact absurd hm (not_mem_keys_of_lookup m id hl)
      | some v => rfl
    rw [List.count_filter hp, ho.count_eq, List.count_eq_one_of_mem hk hm, if_pos hm]
  · have : id ∉ order.filter m.present := fun h => hm (ho.mem_iff.1 (List.mem_filter.1 h).1)
    rw [List.count_eq_zero_of_not_mem this, if_neg hm]

/-- C7: shutdown completeness. In every state of the capture manager, and whatever the
individual shutdowns report, `Shutdown()` calls `shutdown()` exactly once on the broadcast
manager, on the screencast manager, on the audio manager and on each video manager of the map
(and on nothing else); afterwards the pipeline of every one of them reports
`started() == false` and no video or audio manager has a subscriber left. -/
theorem shutdown_completeness (m : CaptureManagerCtx) (order : List String)
    (failed : ManagerRef → Option CaptureError)
    (hk : m.keys.Nodup) (ho : order.Perm m.keys) :
    (Shutdown order failed m).1.calls.count ManagerRef.broadcast = 1 ∧
    (Shutdown order failed m).1.calls.count ManagerRef.screencast = 1 ∧
    (Shutdown order failed m).1.calls.count ManagerRef.audio = 1 ∧
    (∀ id, (Shutdown order failed m).1.calls.count (ManagerRef.video id) =
      if id ∈ m.keys then 1 else 0) ∧
    (Shutdown order failed m).1.calls.length = 3 + m.keys.length ∧
    (Shutdown order failed m).1.panic = none ∧
    (Shutdown order failed m).1.manager.broadcast.started = false ∧
    (Shutdown order failed m).1.manager.screencast.started = false ∧
    (Shutdown order failed m).1.manager.audio.started = false ∧
    (Shutdown order failed m).1.manager.audio.subscribers = [] ∧
    (Shutdown order failed m).1.manager.keys = m.keys ∧
    (∀ id w, (Shutdown order failed m).1.manager.videos.lookup id = some w →
      w.started = false ∧ w.subscribers = []) := by
  obtain ⟨c, p, b, s, a, -, k, l⟩ := shutdownVideos_run order
    { manager := { m with broadcast := m.broadcast.shutdown,
                          screencast := m.screencast.shutdown, audio := m.audio.shutdown },
      calls := [ManagerRef.broadcast, ManagerRef.screencast, ManagerRef.audio], panic := none }
  have hpres : (CaptureManagerCtx.mk m.streaming m.broadcast.shutdown m.screencast.shutdown
      m.audio.shutdown m.videos m.videoIDs).present = m.present := rfl
  simp only [hpres] at c
  unfold Shutdown
  dsimp only
  have h0 := fun x hx => count_other_calls (order.filter m.present) x hx
  refine ⟨?_, ?_, ?_, ?_, ?_, p, ?_, ?_, ?_, ?_, k, ?_⟩
  · rw [c, List.count_append, h0 _ (by intro id h; cases h)]; rfl
  · rw [c, List.count_append, h0 _ (by intro id h; cases h)]; rfl
  · rw [c, List.count_append, h0 _ (by intro id h; cases h)]; rfl
  · intro id
    rw [c, List.count_append, count_present m order id hk ho]
    have : List.count (ManagerRef.video id)
        [ManagerRef.broadcast, ManagerRef.screencast, ManagerRef.audio] = 0 := by
      apply List.count_eq_zero_of_not_mem
      simp
    rw [this, Nat.zero_add]
  · rw [c, List.length_append, List.length_map]
    have hall : order.filter m.present = order := by
      apply List.filter_eq_self.2
      intro id hid
      have hm : id ∈ m.keys := ho.mem_iff.1 hid
      unfold present
      cases hl : m.videos.lookup id with
      | none => exact absurd hm (not_mem_keys_of_lookup m id hl)
      | some v => rfl
    rw [hall, ho.length_eq]
    rfl
  · rw [b]; rfl
  · rw [s]
    show (m.screencast.shutdown).started = false
    by_cases he : m.screencast.enabled = true
    · simp [ScreencastManagerCtx.shutdown, ScreencastManagerCtx.started, he]
    · simp [ScreencastManagerCtx.shutdown, ScreencastManagerCtx.started, he]
  · rw [a]; rfl
  · rw [a]; rfl
  · intro id w hw
    rw [l id] at hw
    have hid : id ∈ order := by
      apply ho.mem_iff.2
      cases hl : m.videos.lookup id with
      | none =>
        have : (CaptureManagerCtx.mk m.streaming m.broadcast.shutdown m.screencast.shutdown
          m.audio.shutdown m.videos m.videoIDs).videos.lookup id = none := hl
        rw [this] at hw; cases hw
      | some v => exact mem_keys_of_lookup m id v hl
    cases hl : m.videos.lookup id with
    | none =>
      have : (CaptureManagerCtx.mk m.streaming m.broadcast.shutdown m.screencast.shutdown
        m.audio.shutdown m.videos m.videoIDs).videos.lookup id = none := hl
      rw [this] at hw; cases hw
    | some v =>
      have : (CaptureManagerCtx.mk m.streaming m.broadcast.shutdown m.screencast.shutdown
        m.audio.shutdown m.videos m.videoIDs).videos.lookup id = some v := hl
      rw [this] at hw
      simp only [Option.map_some', hid, if_true, Option.some.injEq] at hw
      subst hw
      exact ⟨rfl, rfl⟩

/-- C8, amended: `Shutdown()` always returns nil: whatever the individual shutdowns report, no
error is returned or aggregated. -/
theorem shutdown_returns_nil (m : CaptureManagerCtx) (order : List String)
    (failed : ManagerRef → Option CaptureError) : (Shutdown order failed m).2 = none := rfl

/-! ## The accessors along a run of the manager -/

set_option maxRecDepth 100000 in
theorem broadcast_derived (config : Config) (h : config.BroadcastPipeline = "") :
    broadcastPipeline config =
      "flvmux name=mux ! rtmpsink location='\x7burl\x7d live=1' pulsesrc device=" ++
      config.AudioDevice ++
      " ! audio/x-raw,channels=2 ! audioconvert ! queue ! voaacenc bitrate=" ++
      toString (goMul config.BroadcastAudioBitrate 1000) ++
      " ! mux. ximagesrc display-name=" ++ config.Display ++
      " show-pointer=true use-damage=false ! video/x-raw ! videoconvert ! queue " ++
      "! x264enc threads=4 bitrate=" ++ toString config.BroadcastVideoBitrate ++
      " key-int-max=15 byte-stream=true tune=zerolatency speed-preset=" ++
      config.BroadcastPreset ++ " ! mux." := by
  unfold broadcastPipeline
  rw [if_pos h]
  apply String.ext
  simp [Sprintf, sprintfAux, Arg.render, extraArgs]

set_option maxRecDepth 100000 in
theorem screencast_derived (config : Config) (h : config.ScreencastPipeline = "") :
    screencastPipeline config =
      "ximagesrc display-name=" ++ config.Display ++
      " show-pointer=true use-damage=false ! video/x-raw,framerate=" ++ config.ScreencastRate ++
      " ! videoconvert ! queue ! jpegenc quality=" ++ config.ScreencastQuality ++
      " ! appsink name=appsink" := by
  unfold screencastPipeline
  rw [if_pos h]
  apply String.ext
  simp [Sprintf, sprintfAux, Arg.render, extraArgs]

set_option maxRecDepth 100000 in
theorem audio_derived (config : Config) (screen : ScreenSize) (h : config.AudioPipeline = "") :
    audioPipelineStr config screen =
      "pulsesrc device=" ++ config.AudioDevice ++
      " ! audio/x-raw,channels=2 ! audioconvert ! queue ! " ++ config.AudioCodec.Pipeline ++
      " ! appsink name=appsink" := by
  unfold audioPipelineStr
  rw [if_neg (not_not.2 h)]
  apply String.ext
  simp [Sprintf, sprintfAux, Arg.render, extraArgs]

set_option maxRecDepth 100000 in
/-- C9: for every configuration, the broadcast, screencast and audio templates built by `New`
are the operator-supplied strings verbatim when those are non-empty; otherwise they are derived
from the audio device, the display, the audio codec, the screencast rate and quality and the
broadcast audio and video bitrate and preset, in the places shown; the derived broadcast template
contains the placeholder for the destination URL unsubstituted. -/
theorem pipeline_templates (vp8 : RTPCodec) (config : Config) (screen : ScreenSize) :
    (config.BroadcastPipeline ≠ "" →
      (New vp8 config).broadcast.pipelineStr = config.BroadcastPipeline) ∧
    (config.ScreencastPipeline ≠ "" →
      (New vp8 config).screencast.pipelineStr = config.ScreencastPipeline) ∧
    (config.AudioPipeline ≠ "" →
      (New vp8 config).audio.pipelineStr screen = config.AudioPipeline) ∧
    (config.BroadcastPipeline = "" →
      (New vp8 config).broadcast.pipelineStr =
        "flvmux name=mux ! rtmpsink location='\x7burl\x7d live=1' pulsesrc device=" ++
        config.AudioDevice ++
        " ! audio/x-raw,channels=2 ! audioconvert ! queue ! voaacenc bitrate=" ++
        toString (goMul config.BroadcastAudioBitrate 1000) ++
        " ! mux. ximagesrc display-name=" ++ config.Display ++
        " show-pointer=true use-damage=false ! video/x-raw ! videoconvert ! queue " ++
        "! x264enc threads=4 bitrate=" ++ toString config.BroadcastVideoBitrate ++
        " key-int-max=15 byte-stream=true tune=zerolatency speed-preset=" ++
        config.BroadcastPreset ++ " ! mux.") ∧
    (config.BroadcastPipeline = "" →
      "\x7burl\x7d".data <:+: (New vp8 config).broadcast.pipelineStr.data) ∧
    (config.ScreencastPipeline = "" →
      (New vp8 config).screencast.pipelineStr =
        "ximagesrc display-name=" ++ config.Display ++
        " show-pointer=true use-damage=false ! video/x-raw,framerate=" ++ config.ScreencastRate ++
        " ! videoconvert ! queue ! jpegenc quality=" ++ config.ScreencastQuality ++
        " ! appsink name=appsink") ∧
    (config.AudioPipeline = "" →
      (New vp8 config).audio.pipelineStr screen =
        "pulsesrc device=" ++ config.AudioDevice ++
        " ! audio/x-raw,channels=2 ! audioconvert ! queue ! " ++ config.AudioCodec.Pipeline ++
        " ! appsink name=appsink") := by
  refine ⟨?_, ?_, ?_, ?_, ?_, ?_, ?_⟩
  · intro h
    show broadcastPipeline config = _
    unfold broadcastPipeline
    rw [if_neg h]
  · intro h
    show screencastPipeline config = _
    unfold screencastPipeline
    rw [if_neg h]
  · intro h
    show audioPipelineStr config screen = _
    unfold audioPipelineStr
    rw [if_pos h]
  · intro h
    exact broadcast_derived config h
  · intro h
    show _ <:+: (broadcastPipeline config).data
    rw [broadcast_derived config h]
    simp only [String.data_append]
    refine ⟨"flvmux name=mux ! rtmpsink location='".data, " live=1' pulsesrc device=".data ++
      config.AudioDevice.data ++
      " ! audio/x-raw,channels=2 ! audioconvert ! queue ! voaacenc bitrate=".data ++
      (toString (goMul config.BroadcastAudioBitrate 1000)).data ++
      " ! mux. ximagesrc display-name=".data ++ config.Display.data ++
      " show-pointer=true use-damage=false ! video/x-raw ! videoconvert ! queue ".data ++
      "! x264enc threads=4 bitrate=".data ++ (toString config.BroadcastVideoBitrate).data ++
      " key-int-max=15 byte-stream=true tune=zerolatency speed-preset=".data ++
      config.BroadcastPreset.data ++ " ! mux.".data, ?_⟩
    simp
  · intro h
    exact screencast_derived config h
  · intro h
    exact audio_derived config screen h

/-! ## Runs on the example manager -/

/-- Counterexample to C5 as stated: all four tiers, the broadcast and the screencast are started
before the resize; the map is visited in the order hd, hq, mq, lq and the rebuild of mq fails.
The listener panics at mq: `createPipeline` is called on hd, hq and mq only, and afterwards the
pipelines of lq, of the broadcast and of the screencast report `started() == false`. -/
theorem independent_tier_failure_counterexample :
    exampleManager.startedAt "lq" = true ∧
    exampleManager.broadcast.Started = true ∧
    exampleManager.screencast.Started = true ∧
    (OnAfterScreenSizeChange ["hd", "hq", "mq", "lq"] mqFails ⟨1920, 1080, 60⟩
      exampleDestroyed).panic = some "unable to recreate video pipeline" ∧
    (OnAfterScreenSizeChange ["hd", "hq", "mq", "lq"] mqFails ⟨1920, 1080, 60⟩
      exampleDestroyed).calls =
      [ManagerRef.video "hd", ManagerRef.video "hq", ManagerRef.video "mq"] ∧
    ((OnAfterScreenSizeChange ["hd", "hq", "mq", "lq"] mqFails ⟨1920, 1080, 60⟩
      exampleDestroyed).manager.videos.lookup "lq").map (fun v => v.started) = some false ∧
    (OnAfterScreenSizeChange ["hd", "hq", "mq", "lq"] mqFails ⟨1920, 1080, 60⟩
      exampleDestroyed).manager.broadcast.started = false ∧
    (OnAfterScreenSizeChange ["hd", "hq", "mq", "lq"] mqFails ⟨1920, 1080, 60⟩
      exampleDestroyed).manager.screencast.started = false := by
  decide

/-- Counterexample to C8 as stated: `shutdown()` is called on the screencast manager and reports
an error, and `Shutdown()` still returns nil. -/
theorem shutdown_error_lost :
    ManagerRef.screencast ∈
      (Shutdown ["hd", "hq", "mq", "lq"] screencastFails exampleManager).1.calls ∧
    screencastFails ManagerRef.screencast = some CaptureError.SubsystemUnavailable ∧
    (Shutdown ["hd", "hq", "mq", "lq"] screencastFails exampleManager).2 = none := by
  decide

set_option maxRecDepth 1000000 in
/-- The descriptors of the hd tier of the example configuration at 1280x720 and at 1920x1080. -/
theorem example_descriptors :
    hdPipelineStr exampleConfig ⟨1280, 720, 60⟩ =
      "ximagesrc display-name=:99.0 show-pointer=false use-damage=false ! video/x-raw,framerate=25/1 ! videoconvert ! queue ! vp8enc end-usage=cbr target-bitrate=1382400 cpu-used=4 threads=4 deadline=1 undershoot=95 keyframe-max-dist=25 min-quantizer=3 max-quantizer=32 buffer-size=8292 buffer-initial-size=5528 buffer-optimal-size=6910 ! appsink name=appsink" ∧
    hdPipelineStr exampleConfig ⟨1920, 1080, 60⟩ =
      "ximagesrc display-name=:99.0 show-pointer=false use-damage=false ! video/x-raw,framerate=25/1 ! videoconvert ! queue ! vp8enc end-usage=cbr target-bitrate=3110400 cpu-used=4 threads=4 deadline=1 undershoot=95 keyframe-max-dist=25 min-quantizer=3 max-quantizer=32 buffer-size=18660 buffer-initial-size=12440 buffer-optimal-size=15550 ! appsink name=appsink" := by
  decide

/-- Witness of C4: the example manager, resized from 1280x720 to 1920x1080, the map visited in
two different orders, with an engine that builds every graph: the hd tier goes from the
descriptor with target-bitrate 1382400 to the one with 3110400, the hq tier ends with 1555200. -/
theorem resize_round_trip_witness :
    ["hq", "lq", "mq", "hd"].Perm exampleManager.keys ∧
    ["lq", "hd", "mq", "hq"].Perm exampleManager.keys ∧
    (exampleManager.videos.lookup "hd").map (fun v => v.pipeline) =
      some (some (hdPipelineStr exampleConfig ⟨1280, 720, 60⟩)) ∧
    (∃ size initial optimal, hdPipelineStr exampleConfig ⟨1280, 720, 60⟩ =
      videoDescriptor ":99.0" "25/1" 1382400 size initial optimal) ∧
    (OnAfterScreenSizeChange ["lq", "hd", "mq", "hq"] (fun _ _ => true) ⟨1920, 1080, 60⟩
      (OnBeforeScreenSizeChange ["hq", "lq", "mq", "hd"] exampleManager).manager).panic = none ∧
    (∃ w, (OnAfterScreenSizeChange ["lq", "hd", "mq", "hq"] (fun _ _ => true) ⟨1920, 1080, 60⟩
        (OnBeforeScreenSizeChange ["hq", "lq", "mq", "hd"] exampleManager).manager).manager.videos.lookup
          "hd" = some w ∧
      w.subscribers = ["peer-1"] ∧ w.started = true ∧
      w.pipeline = some (hdPipelineStr exampleConfig ⟨1920, 1080, 60⟩) ∧
      ∃ size initial optimal,
        ("hd" = "hd" ∧ w.pipeline =
          some (videoDescriptor ":99.0" "25/1" 3110400 size initial optimal)) ∨
        ("hd" = "hq" ∧ w.pipeline =
          some (videoDescriptor ":99.0" "15/1" 1555200 size initial optimal)) ∨
        ("hd" = "mq" ∧ w.pipeline =
          some (videoDescriptor ":99.0" "10/1" 1036800 size initial optimal)) ∨
        ("hd" = "lq" ∧ w.pipeline =
          some (videoDescriptor ":99.0" "5/1" 777600 size initial optimal))) ∧
    (∃ w, (OnAfterScreenSizeChange ["lq", "hd", "mq", "hq"] (fun _ _ => true) ⟨1920, 1080, 60⟩
        (OnBeforeScreenSizeChange ["hq", "lq", "mq", "hd"] exampleManager).manager).manager.videos.lookup
          "hq" = some w ∧
      w.subscribers = ["peer-1"] ∧ w.started = true ∧
      w.pipeline = some (hqPipelineStr exampleConfig ⟨1920, 1080, 60⟩) ∧
      ∃ size initial optimal,
        ("hq" = "hd" ∧ w.pipeline =
          some (videoDescriptor ":99.0" "25/1" 3110400 size initial optimal)) ∨
        ("hq" = "hq" ∧ w.pipeline =
          some (videoDescriptor ":99.0" "15/1" 1555200 size initial optimal)) ∨
        ("hq" = "mq" ∧ w.pipeline =
          some (videoDescriptor ":99.0" "10/1" 1036800 size initial optimal)) ∨
        ("hq" = "lq" ∧ w.pipeline =
          some (videoDescriptor ":99.0" "5/1" 777600 size initial optimal))) :=
  ⟨by decide, by decide, rfl, ⟨_, _, _, hd_render exampleConfig ⟨1280, 720, 60⟩⟩,
    (resize_round_trip ⟨"vp8", "vp8enc"⟩ exampleConfig exampleManager ["hq", "lq", "mq", "hd"]
      ["lq", "hd", "mq", "hq"] (fun _ _ => true) ⟨1920, 1080, 60⟩ rfl (by decide)
      (by decide)).1 (fun _ _ => rfl),
    (resize_round_trip ⟨"vp8", "vp8enc"⟩ exampleConfig exampleManager ["hq", "lq", "mq", "hd"]
      ["lq", "hd", "mq", "hq"] (fun _ _ => true) ⟨1920, 1080, 60⟩ rfl (by decide)
      (by decide)).2.1 (by decide) "hd"
      { streamNew ⟨"vp8", "vp8enc"⟩ (hdPipelineStr exampleConfig) with
        subscribers := ["peer-1"],
        pipeline := some (hdPipelineStr exampleConfig ⟨1280, 720, 60⟩) }
      rfl (by decide),
    (resize_round_trip ⟨"vp8", "vp8enc"⟩ exampleConfig exampleManager ["hq", "lq", "mq", "hd"]
      ["lq", "hd", "mq", "hq"] (fun _ _ => true) ⟨1920, 1080, 60⟩ rfl (by decide)
      (by decide)).2.1 (by decide) "hq"
      { streamNew ⟨"vp8", "vp8enc"⟩ (hqPipelineStr exampleConfig) with
        subscribers := ["peer-1"],
        pipeline := some (hqPipelineStr exampleConfig ⟨1280, 720, 60⟩) }
      rfl (by decide)⟩

/-- Witness of C6: the before-resize listener on the example manager. -/
theorem before_resize_destroys_started_witness :
    exampleManager.keys.Nodup ∧ ["hq", "lq", "mq", "hd"].Perm exampleManager.keys ∧
    (OnBeforeScreenSizeChange ["hq", "lq", "mq", "hd"] exampleManager).panic = none ∧
    (OnBeforeScreenSizeChange ["hq", "lq", "mq", "hd"] exampleManager).calls.count
      ManagerRef.broadcast = (if exampleManager.broadcast.Started = true then 1 else 0) ∧
    (OnBeforeScreenSizeChange ["hq", "lq", "mq", "hd"] exampleManager).calls.count
      ManagerRef.audio = 0 ∧
    (OnBeforeScreenSizeChange ["hq", "lq", "mq", "hd"] exampleManager).manager.broadcast.forced =
      exampleManager.broadcast.forced :=
  ⟨by decide, by decide,
    (before_resize_destroys_started exampleManager ["hq", "lq", "mq", "hd"]
      (by decide) (by decide)).1,
    (before_resize_destroys_started exampleManager ["hq", "lq", "mq", "hd"]
      (by decide) (by decide)).2.2.2.1,
    (before_resize_destroys_started exampleManager ["hq", "lq", "mq", "hd"]
      (by decide) (by decide)).2.2.2.2.2.1,
    (before_resize_destroys_started exampleManager ["hq", "lq", "mq", "hd"]
      (by decide) (by decide)).2.2.2.2.2.2.2.1⟩

/-- Witness of C7: `Shutdown` on the example manager. -/
theorem shutdown_completeness_witness :
    exampleManager.keys.Nodup ∧ ["mq", "hd", "lq", "hq"].Perm exampleManager.keys ∧
    (Shutdown ["mq", "hd", "lq", "hq"] screencastFails exampleManager).1.calls.count
      ManagerRef.broadcast = 1 ∧
    (Shutdown ["mq", "hd", "lq", "hq"] screencastFails exampleManager).1.calls.count
      (ManagerRef.video "hd") = (if "hd" ∈ exampleManager.keys then 1 else 0) ∧
    (Shutdown ["mq", "hd", "lq", "hq"] screencastFails exampleManager).1.calls.length =
      3 + exampleManager.keys.length ∧
    (Shutdown ["mq", "hd", "lq", "hq"] screencastFails exampleManager).1.manager.broadcast.started =
      false :=
  ⟨by decide, by decide,
    (shutdown_completeness exampleManager ["mq", "hd", "lq", "hq"] screencastFails
      (by decide) (by decide)).1,
    (shutdown_completeness exampleManager ["mq", "hd", "lq", "hq"] screencastFails
      (by decide) (by decide)).2.2.2.1 "hd",
    (shutdown_completeness exampleManager ["mq", "hd", "lq", "hq"] screencastFails
      (by decide) (by decide)).2.2.2.2.1,
    (shutdown_completeness exampleManager ["mq", "hd", "lq", "hq"] screencastFails
      (by decide) (by decide)).2.2.2.2.2.2.1⟩

/-- Witness of C9: one configuration without explicit pipelines, one with. -/
theorem pipeline_templates_witness :
    exampleConfig.BroadcastPipeline = "" ∧
    "\x7burl\x7d".data <:+: (New ⟨"vp8", "vp8enc"⟩ exampleConfig).broadcast.pipelineStr.data ∧
    explicitConfig.BroadcastPipeline ≠ "" ∧
    (New ⟨"vp8", "vp8enc"⟩ explicitConfig).broadcast.pipelineStr =
      explicitConfig.BroadcastPipeline ∧
    explicitConfig.AudioPipeline ≠ "" ∧
    (New ⟨"vp8", "vp8enc"⟩ explicitConfig).audio.pipelineStr ⟨1280, 720, 60⟩ =
      explicitConfig.AudioPipeline :=
  ⟨rfl,
    (pipeline_templates ⟨"vp8", "vp8enc"⟩ exampleConfig ⟨1280, 720, 60⟩).2.2.2.2.1 rfl,
    by decide,
    (pipeline_templates ⟨"vp8", "vp8enc"⟩ explicitConfig ⟨1280, 720, 60⟩).1 (by decide),
    by decide,
    (pipeline_templates ⟨"vp8", "vp8enc"⟩ explicitConfig ⟨1280, 720, 60⟩).2.2.1 (by decide)⟩

/-- On the example manager the tiers hd and hq are rebuilt without an error. -/
theorem example_built :
    allBuilt mqFails ⟨1920, 1080, 60⟩ exampleDestroyed ["hd", "hq"] := by
  intro id hid v hv _
  have h : id = "hd" ∨ id = "hq" := by simpa using hid
  rcases h with rfl | rfl
  · have e : (exampleDestroyed.videos.lookup "hd").map
        (fun v => (v.createPipeline (mqFails (ManagerRef.video "hd")) ⟨1920, 1080, 60⟩).2) =
        some none := by decide
    rw [hv] at e
    simpa using e
  · have e : (exampleDestroyed.videos.lookup "hq").map
        (fun v => (v.createPipeline (mqFails (ManagerRef.video "hq")) ⟨1920, 1080, 60⟩).2) =
        some none := by decide
    rw [hv] at e
    simpa using e

/-- Witness of the amended C5: the example manager after the before-resize listener, the map
visited in the order hd, hq, mq, lq, the rebuild of mq failing. -/
theorem rebuild_failure_panics_witness :
    (["hd", "hq"] ++ "mq" :: ["lq"]).Nodup ∧
    allBuilt mqFails ⟨1920, 1080, 60⟩ exampleDestroyed ["hd", "hq"] ∧
    (OnAfterScreenSizeChange (["hd", "hq"] ++ "mq" :: ["lq"]) mqFails ⟨1920, 1080, 60⟩
      exampleDestroyed).panic = some "unable to recreate video pipeline" ∧
    (OnAfterScreenSizeChange (["hd", "hq"] ++ "mq" :: ["lq"]) mqFails ⟨1920, 1080, 60⟩
      exampleDestroyed).calls =
      (["hd", "hq"].filter exampleDestroyed.startedAt).map ManagerRef.video ++
        [ManagerRef.video "mq"] ∧
    (OnAfterScreenSizeChange (["hd", "hq"] ++ "mq" :: ["lq"]) mqFails ⟨1920, 1080, 60⟩
      exampleDestroyed).manager.broadcast = exampleDestroyed.broadcast :=
  ⟨by decide, example_built,
    (rebuild_failure_panics exampleDestroyed ["hd", "hq"] ["lq"] "mq" mqFails ⟨1920, 1080, 60⟩
      { streamNew ⟨"vp8", "vp8enc"⟩ (mqPipelineStr exampleConfig) with
        subscribers := ["peer-1"], pipeline := none }
      CaptureError.PipelineConstruction (by decide) example_built rfl rfl rfl).1,
    (rebuild_failure_panics exampleDestroyed ["hd", "hq"] ["lq"] "mq" mqFails ⟨1920, 1080, 60⟩
      { streamNew ⟨"vp8", "vp8enc"⟩ (mqPipelineStr exampleConfig) with
        subscribers := ["peer-1"], pipeline := none }
      CaptureError.PipelineConstruction (by decide) example_built rfl rfl rfl).2.1,
    (rebuild_failure_panics exampleDestroyed ["hd", "hq"] ["lq"] "mq" mqFails ⟨1920, 1080, 60⟩
      { streamNew ⟨"vp8", "vp8enc"⟩ (mqPipelineStr exampleConfig) with
        subscribers := ["peer-1"], pipeline := none }
      CaptureError.PipelineConstruction (by decide) example_built rfl rfl rfl).2.2.2.2.2.1⟩
end CaptureManagerCtx

end capture
